import Mathlib

/-!
# simple_flight remote-control input layer

A shallow embedding of `RemoteControl.hpp` (the arm/disarm state machine driven by
radio-control stick readings) and of the value types of `CommonStructs.hpp`.

Conventions of the embedding:

* A `TReal` (the source's `float`) is a finite binary32 number, held as the rational
  number it denotes; comparisons are exact, and every arithmetic result (`1 - tolerance`,
  `(pitch + 1) / 2`, `center ± tolerance`, the products of `colWiseMultiply`) is rounded
  to binary32 by `float32`, to nearest with ties to even. Not-a-number, the infinities
  and results beyond the largest finite binary32 number are outside the model: channel
  readings are normalized and the parameters are finite.
* `uint64_t` values are natural numbers; subtraction and `+=` reduce modulo `2 ^ 64`.
* `comm_link_->log(...)` only writes text to the external sink and touches no field of
  `RemoteControl`; the base-class hooks `IGoalInput::reset()` / `IGoalInput::update()`
  are not part of the sources and own no field of `RemoteControl`. Both are left out.
* A `throw` is an `Except.error` that carries the message together with the object as it
  was when the exception left `update()`.
-/

namespace simple_flight

/-! ## CommonStructs.hpp -/

/-- The source's `typedef float TReal`: a finite binary32 number, held as the rational
number it denotes. -/
abbrev TReal := ℚ

/-- Rounding of a rational number to the nearest integer, ties to the even one. -/
def roundHalfEven (y : ℚ) : ℤ :=
  if y - ⌊y⌋ < 1 / 2 then ⌊y⌋
  else if 1 / 2 < y - ⌊y⌋ then ⌊y⌋ + 1
  else if ⌊y⌋ % 2 = 0 then ⌊y⌋ else ⌊y⌋ + 1

/-- The exponent of the last place of binary32 at `x`: 24 significant bits, and no
finer than `2 ^ (-149)` (the subnormal numbers). -/
def float32Exponent (x : ℚ) : ℤ := max (Int.log 2 |x| - 23) (-149)

/-- Rounding to binary32, to nearest with ties to even: the value a `float` operation
stores when its exact result is `x`. -/
def float32 (x : ℚ) : TReal :=
  roundHalfEven (x / 2 ^ float32Exponent x) * 2 ^ float32Exponent x

/-- The `float` sum `a + b`. -/
def fadd (a b : TReal) : TReal := float32 (a + b)

/-- The `float` difference `a - b`. -/
def fsub (a b : TReal) : TReal := float32 (a - b)

/-- The `float` product `a * b`. -/
def fmul (a b : TReal) : TReal := float32 (a * b)

/-- The `float` quotient `a / b`. -/
def fdiv (a b : TReal) : TReal := float32 (a / b)

/-- The three slots `vals_[0]`, `vals_[1]`, `vals_[2]` of `Axis3<T>`. -/
structure Axis3 (T : Type) where
  x : T
  y : T
  z : T
deriving DecidableEq, Repr

namespace Axis3

variable {T : Type}

/-- Accessor `roll()`: slot 0. -/
def roll (a : Axis3 T) : T := a.x

/-- Accessor `pitch()`: slot 1. -/
def pitch (a : Axis3 T) : T := a.y

/-- Accessor `yaw()`: slot 2. -/
def yaw (a : Axis3 T) : T := a.z

/-- The constructor `Axis3(x_val = T(), y_val = T(), z_val = T())` with no argument,
which is what `Axis3<T>::zero()` returns. -/
def zero [Zero T] : Axis3 T := ⟨0, 0, 0⟩

/-- Member `equals3`: slot-wise equality. -/
def equals3 [DecidableEq T] (a other : Axis3 T) : Bool :=
  decide (a.x = other.x) && decide (a.y = other.y) && decide (a.z = other.z)

/-- Member `colWiseMultiply3` (called `colWiseMultiply` by `RemoteControl.hpp`):
slot-wise product, the receiver on the left; `mul` is the `operator*` of the element
type `T`. -/
def colWiseMultiply3 (mul : T → T → T) (a other : Axis3 T) : Axis3 T :=
  ⟨mul a.x other.x, mul a.y other.y, mul a.z other.z⟩

end Axis3

/-- An `Axis4<T>`: the `Axis3<T>` part and the fourth slot `val4_`. -/
structure Axis4 (T : Type) where
  axis3 : Axis3 T
  val4 : T
deriving DecidableEq, Repr

namespace Axis4

variable {T : Type}

/-- Accessor `throttle()`: the fourth slot. -/
def throttle (a : Axis4 T) : T := a.val4

/-- The constructor `Axis4(x_val, y_val, z_val, val4_val)`. -/
def mk4 (x_val y_val z_val val4_val : T) : Axis4 T := ⟨⟨x_val, y_val, z_val⟩, val4_val⟩

/-- The value of `Axis4<T>::zero()`: the default-constructed object. -/
def zero [Zero T] : Axis4 T := mk4 0 0 0 0

end Axis4

/-- The enumeration `VehicleStateType`. -/
inductive VehicleStateType where
  | Unknown | Inactive | BeingArmed | Armed | Active | BeingDisarmed | Disarmed
deriving DecidableEq, Repr

/-- The enumeration `GoalModeType`. -/
inductive GoalModeType where
  | Unknown | Passthrough | AngleLevel | AngleRate | VelocityWorld | PositionWorld
  | ConstantOutput
deriving DecidableEq, Repr

/-- The class `GoalMode`, an `Axis4<GoalModeType>`. -/
abbrev GoalMode := Axis4 GoalModeType

namespace GoalMode

/-- The constructor of `GoalMode` with its default arguments. -/
def default : GoalMode :=
  Axis4.mk4 GoalModeType.AngleLevel GoalModeType.AngleLevel GoalModeType.AngleRate
    GoalModeType.Passthrough

/-- Preset `getStandardAngleMode()`: `GoalMode()`. -/
def getStandardAngleMode : GoalMode := GoalMode.default

/-- Preset `getAllRateMode()`. -/
def getAllRateMode : GoalMode :=
  Axis4.mk4 GoalModeType.AngleRate GoalModeType.AngleRate GoalModeType.AngleRate
    GoalModeType.Passthrough

/-- Preset `getUnknown()`. -/
def getUnknown : GoalMode :=
  Axis4.mk4 GoalModeType.Unknown GoalModeType.Unknown GoalModeType.Unknown
    GoalModeType.Unknown

end GoalMode

/-! ## Parameters and board capabilities -/

/-- Modelled from the spec: the `rc` part of the parameter block `Params`, whose
declaration is not among the sources. The fields are those `RemoteControl.hpp` reads:
read interval and hold durations in milliseconds, the channel identifiers, the gesture
tolerance, the selector split point and the minimum angling throttle. -/
structure RcParams where
  read_interval_ms : Nat
  channels : Axis4 Nat
  rate_level_mode_channel : Nat
  action_request_tolerance : TReal
  arm_duration : Nat
  neutral_duration : Nat
  disarm_duration : Nat
  max_angle_level_switch : TReal
  min_angling_throttle : TReal

/-- Modelled from the spec: a per-mode controller block of `Params`, of which
`RemoteControl.hpp` reads only the axis limit table `max_limit`. -/
structure PidParams where
  max_limit : Axis3 TReal

/-- Modelled from the spec: the parameter block `Params` (declaration not among the
sources), an immutable bundle with the `rc` block, the minimum armed throttle, the two
limit tables and the default goal mode and lifecycle state used by `reset()`. -/
structure Params where
  rc : RcParams
  min_armed_throttle : TReal
  angle_level_pid : PidParams
  angle_rate_pid : PidParams
  default_goal_mode : GoalMode
  default_vehicle_state : VehicleStateType

/-- Modelled from the spec: what the clock (`IBoardClock::millis`) and the input pins
(`IBoardInputPins::readChannel`) answer during one call of `update()`. -/
structure Board where
  millis : Nat
  readChannel : Nat → TReal

/-! ## RemoteControl.hpp -/

/-- The `uint64_t` difference `a - b`. -/
def sub64 (a b : Nat) : Nat := (a % 2 ^ 64 + 2 ^ 64 - b % 2 ^ 64) % 2 ^ 64

/-- The `uint64_t` sum `a + b`. -/
def add64 (a b : Nat) : Nat := (a + b) % 2 ^ 64

/-- The value `std::numeric_limits<float>::min()`: the least positive normal `float`,
`2 ^ (-126)`. -/
def TReal_min : TReal := 1 / 2 ^ 126

/-- The private enumeration `RcRequestType`. -/
inductive RcRequestType where
  | None | ArmRequest | DisarmRequest | NeutralRequest
deriving DecidableEq, Repr

/-- The data members of `RemoteControl` that `reset()` and `update()` write. -/
structure RemoteControl where
  goal_ : Axis4 TReal
  goal_mode_ : GoalMode
  last_rec_read_ : Nat
  angle_mode_ : TReal
  last_angle_mode_ : TReal
  request_duration_ : Nat
  vehicle_state_ : VehicleStateType
deriving DecidableEq

namespace RemoteControl

/-- Method `isInTolerance(val, tolerance, center)`; the callers leave `center` to its
default `TReal()`, which is `0`. -/
def isInTolerance (val tolerance center : TReal) : Bool :=
  decide (val ≤ fadd center tolerance) && decide (val ≥ fsub center tolerance)

/-- Method `getActionRequest(channels)`. -/
def getActionRequest (p : Params) (channels : Axis4 TReal) : RcRequestType :=
  let tolerance := p.rc.action_request_tolerance
  let stick_min := fsub 1 tolerance
  let yaw_action_positive := decide (channels.axis3.yaw ≥ stick_min)
  let yaw_action_negative := decide (channels.axis3.yaw ≤ -stick_min)
  let throttle_action := decide (channels.throttle ≤ tolerance)
  let roll_action_positive := decide (channels.axis3.roll ≥ stick_min)
  let roll_action_negative := decide (channels.axis3.roll ≤ -stick_min)
  let normalized_pitch := fdiv (fadd channels.axis3.pitch 1) 2
  let pitch_action := decide (normalized_pitch ≥ stick_min)
  if yaw_action_positive && throttle_action && roll_action_negative && pitch_action then
    RcRequestType.ArmRequest
  else if yaw_action_negative && throttle_action && roll_action_positive && pitch_action then
    RcRequestType.DisarmRequest
  else if isInTolerance channels.axis3.roll tolerance 0
      && isInTolerance channels.axis3.pitch tolerance 0
      && isInTolerance channels.axis3.yaw tolerance 0 then
    RcRequestType.NeutralRequest
  else
    RcRequestType.None

/-- Method `reset()`. The member `angle_mode_` is not assigned by it. -/
def reset (p : Params) (s : RemoteControl) : RemoteControl :=
  { s with
    goal_ := Axis4.zero
    goal_mode_ := p.default_goal_mode
    last_rec_read_ := 0
    last_angle_mode_ := TReal_min
    request_duration_ := 0
    vehicle_state_ := p.default_vehicle_state }

/-- Method `updateGoalMode()`. -/
def updateGoalMode (p : Params) (b : Board) (s : RemoteControl) : RemoteControl :=
  let s1 := { s with angle_mode_ := b.readChannel p.rc.rate_level_mode_channel }
  if s1.last_angle_mode_ ≠ s1.angle_mode_ then
    let s2 :=
      if s1.angle_mode_ < p.rc.max_angle_level_switch then
        { s1 with goal_mode_ := GoalMode.getStandardAngleMode }
      else
        { s1 with goal_mode_ := GoalMode.getAllRateMode }
    { s2 with last_angle_mode_ := s2.angle_mode_ }
  else
    s1

/-- Method `updateGoal(channels)`. -/
def updateGoal (p : Params) (channels : Axis4 TReal) (s : RemoteControl) : RemoteControl :=
  let s1 :=
    if channels.throttle ≤ p.rc.min_angling_throttle then
      { s with goal_ := { s.goal_ with val4 := p.rc.min_angling_throttle } }
    else
      { s with goal_ := { s.goal_ with val4 := channels.throttle } }
  if s1.angle_mode_ < p.rc.max_angle_level_switch then
    { s1 with goal_ :=
        { s1.goal_ with
          axis3 := p.angle_level_pid.max_limit.colWiseMultiply3 fmul channels.axis3 } }
  else
    { s1 with goal_ :=
        { s1.goal_ with
          axis3 := p.angle_rate_pid.max_limit.colWiseMultiply3 fmul channels.axis3 } }

/-- The channel values `update()` reads: the three angular channels into `axis3` and the
throttle channel into `throttle`. -/
def readChannels (p : Params) (b : Board) : Axis4 TReal :=
  { axis3 :=
      ⟨b.readChannel p.rc.channels.axis3.x, b.readChannel p.rc.channels.axis3.y,
        b.readChannel p.rc.channels.axis3.z⟩
    val4 := b.readChannel p.rc.channels.throttle }

/-- The `uint64_t dt = time - last_rec_read_` of `update()`. -/
def elapsed (b : Board) (s : RemoteControl) : Nat :=
  sub64 (b.millis % 2 ^ 64) s.last_rec_read_

/-- The `switch (vehicle_state_)` of `update()`, run on the object `s` after the channel
read and `updateGoalMode()`. -/
def stateMachine (p : Params) (dt : Nat) (channels : Axis4 TReal) (rc_action : RcRequestType)
    (s : RemoteControl) : Except (String × RemoteControl) RemoteControl :=
  match s.vehicle_state_ with
  | VehicleStateType.Inactive =>
    if rc_action = RcRequestType.ArmRequest then
      let s1 := { s with request_duration_ := add64 s.request_duration_ dt }
      if s1.request_duration_ > p.rc.arm_duration then
        Except.ok { s1 with vehicle_state_ := VehicleStateType.BeingArmed, request_duration_ := 0 }
      else
        Except.ok s1
    else
      Except.ok s
  | VehicleStateType.BeingArmed =>
    let s1 := { s with goal_ := { axis3 := Axis3.zero, val4 := p.min_armed_throttle } }
    if rc_action = RcRequestType.NeutralRequest then
      let s2 := { s1 with request_duration_ := add64 s1.request_duration_ dt }
      if s2.request_duration_ > p.rc.neutral_duration then
        Except.ok { s2 with vehicle_state_ := VehicleStateType.Armed, request_duration_ := 0 }
      else
        Except.ok s2
    else
      Except.ok s1
  | VehicleStateType.Armed =>
    if rc_action = RcRequestType.DisarmRequest then
      let s1 := { s with request_duration_ := add64 s.request_duration_ dt }
      if s1.request_duration_ > p.rc.disarm_duration then
        Except.ok
          { s1 with vehicle_state_ := VehicleStateType.BeingDisarmed, request_duration_ := 0 }
      else
        Except.ok s1
    else
      Except.ok (updateGoal p channels { s with request_duration_ := 0 })
  | VehicleStateType.BeingDisarmed =>
    Except.ok
      { s with
        goal_ := { s.goal_ with axis3 := Axis3.zero }
        vehicle_state_ := VehicleStateType.Disarmed
        request_duration_ := 0 }
  | VehicleStateType.Disarmed =>
    Except.ok
      { s with
        goal_ := { axis3 := Axis3.zero, val4 := 0 }
        vehicle_state_ := VehicleStateType.Inactive
        request_duration_ := 0 }
  | _ => Except.error ("VehicleState has unknown value for RemoteControl::update()", s)

/-- Method `update()`, one call with the board answering `b`. -/
def update (p : Params) (b : Board) (s : RemoteControl) :
    Except (String × RemoteControl) RemoteControl :=
  let time := b.millis % 2 ^ 64
  let dt := sub64 time s.last_rec_read_
  if dt ≤ p.rc.read_interval_ms then
    Except.ok s
  else
    let s1 := { s with last_rec_read_ := time }
    let channels := readChannels p b
    let s2 := updateGoalMode p b s1
    let rc_action := getActionRequest p channels
    stateMachine p dt channels rc_action s2

/-- Successive calls of `update()`, one per board answer, stopping at the first throw. -/
def run (p : Params) : RemoteControl → List Board → Except (String × RemoteControl) RemoteControl
  | s, [] => Except.ok s
  | s, b :: bs =>
    match update p b s with
    | Except.ok s1 => run p s1 bs
    | Except.error e => Except.error e

/-- The object left by a call of `update()`, whether it returned or threw. -/
def stateOf : Except (String × RemoteControl) RemoteControl → RemoteControl
  | Except.ok s => s
  | Except.error e => e.2

/-- Whether a call of `update()` returned normally. -/
def returns : Except (String × RemoteControl) RemoteControl → Bool
  | Except.ok _ => true
  | Except.error _ => false

/-- The object after successive calls of `update()`, one per board answer. -/
def afterTicks (p : Params) (s : RemoteControl) (bs : List Board) : RemoteControl :=
  bs.foldl (fun acc b => stateOf (update p b acc)) s

/-- The first condition tested by `getActionRequest`, the one answered by `ArmRequest`. -/
def armGesture (tolerance : TReal) (channels : Axis4 TReal) : Bool :=
  decide (channels.axis3.yaw ≥ fsub 1 tolerance) && decide (channels.throttle ≤ tolerance)
    && decide (channels.axis3.roll ≤ -(fsub 1 tolerance))
    && decide (fdiv (fadd channels.axis3.pitch 1) 2 ≥ fsub 1 tolerance)

/-- The second condition tested by `getActionRequest`, the one answered by
`DisarmRequest`. -/
def disarmGesture (tolerance : TReal) (channels : Axis4 TReal) : Bool :=
  decide (channels.axis3.yaw ≤ -(fsub 1 tolerance)) && decide (channels.throttle ≤ tolerance)
    && decide (channels.axis3.roll ≥ fsub 1 tolerance)
    && decide (fdiv (fadd channels.axis3.pitch 1) 2 ≥ fsub 1 tolerance)

/-- The third condition tested by `getActionRequest`, the one answered by
`NeutralRequest`. -/
def neutralGesture (tolerance : TReal) (channels : Axis4 TReal) : Bool :=
  isInTolerance channels.axis3.roll tolerance 0
    && isInTolerance channels.axis3.pitch tolerance 0
    && isInTolerance channels.axis3.yaw tolerance 0

/-- A clock that never runs backwards and stays inside `uint64_t`, read at ticks that are
each more than `read_interval_ms` after the previous read at time `t`. -/
def Qualifying (p : Params) : Nat → List Board → Prop
  | _, [] => True
  | t, b :: bs =>
    t ≤ b.millis ∧ b.millis < 2 ^ 64 ∧ sub64 b.millis t > p.rc.read_interval_ms
      ∧ Qualifying p b.millis bs

/-- The sum of the `dt` values of successive qualifying ticks, the previous read being at
time `t` (`sub64` reduces both its arguments modulo `2 ^ 64`). -/
def dtSum : Nat → List Board → Nat
  | _, [] => 0
  | t, b :: bs => sub64 b.millis t + dtSum b.millis bs

/-- The clock value of the last of successive ticks, `t` when there is none. -/
def lastTime : Nat → List Board → Nat
  | t, [] => t
  | _, b :: bs => lastTime b.millis bs

/-! ### Concrete inputs -/

/-- A parameter block: reads every 10 ms, holds of 100 ms, tolerance 0.1, selector split
at 0.3; roll, pitch, yaw and throttle on channels 0 to 3, the selector on channel 4. -/
def exampleParams : Params :=
  { rc :=
      { read_interval_ms := 10
        channels := Axis4.mk4 0 1 2 3
        rate_level_mode_channel := 4
        action_request_tolerance := 1 / 10
        arm_duration := 100
        neutral_duration := 100
        disarm_duration := 100
        max_angle_level_switch := 3 / 10
        min_angling_throttle := 1 / 15 }
    min_armed_throttle := 1 / 10
    angle_level_pid := { max_limit := ⟨1 / 2, 1 / 2, 3⟩ }
    angle_rate_pid := { max_limit := ⟨5 / 2, 5 / 2, 5 / 2⟩ }
    default_goal_mode := GoalMode.getStandardAngleMode
    default_vehicle_state := VehicleStateType.Inactive }

/-- The parameter block `exampleParams` with a minimum armed throttle of 0, below the
minimum angling throttle. -/
def lowArmedParams : Params := { exampleParams with min_armed_throttle := 0 }

/-- The parameter block `exampleParams` with the all-rate preset as default goal mode. -/
def allRateDefaultParams : Params :=
  { exampleParams with default_goal_mode := GoalMode.getAllRateMode }

/-- The parameter block `exampleParams` with `Armed` as default lifecycle state. -/
def armedDefaultParams : Params :=
  { exampleParams with default_vehicle_state := VehicleStateType.Armed }

/-- The parameter block `exampleParams` with binary32 numbers in its `float` members:
tolerance 0.1f = 13421773 / 2 ^ 27, selector split 0.25, minimum angling throttle 0.0625,
minimum armed throttle 0.125 (the limit tables already hold binary32 numbers). -/
def float32Params : Params :=
  { exampleParams with
    rc :=
      { exampleParams.rc with
        action_request_tolerance := 13421773 / 134217728
        max_angle_level_switch := 1 / 4
        min_angling_throttle := 1 / 16 }
    min_armed_throttle := 1 / 8 }

/-- A board whose clock reads `millis` and whose channels 0 to 4 read roll, pitch, yaw,
throttle and the mode selector. -/
def sticks (millis : Nat) (roll pitch yaw throttle mode : TReal) : Board :=
  { millis := millis
    readChannel := fun c =>
      if c = 0 then roll else if c = 1 then pitch else if c = 2 then yaw
      else if c = 3 then throttle else mode }

/-- The arming gesture held at time `millis`: roll fully left, pitch and yaw at the
positive stop, throttle down. -/
def armSticks (millis : Nat) : Board := sticks millis (-1) 1 1 0 0

/-- The disarming gesture held at time `millis`. -/
def disarmSticks (millis : Nat) : Board := sticks millis 1 1 (-1) 0 0

/-- Centred sticks at time `millis`. -/
def neutralSticks (millis : Nat) : Board := sticks millis 0 0 0 0 0

/-- An armed object: goal throttle 1/2, last read at 400 ms, accumulator 0. -/
def armedExample : RemoteControl :=
  { goal_ := Axis4.mk4 0 0 0 (1 / 2)
    goal_mode_ := GoalMode.getStandardAngleMode
    last_rec_read_ := 400
    angle_mode_ := 0
    last_angle_mode_ := 0
    request_duration_ := 0
    vehicle_state_ := VehicleStateType.Armed }

/-- An object with every member zero and lifecycle state `Unknown`, as a starting point
for `reset()`. -/
def blank : RemoteControl :=
  { goal_ := Axis4.zero
    goal_mode_ := GoalMode.getUnknown
    last_rec_read_ := 0
    angle_mode_ := 0
    last_angle_mode_ := 0
    request_duration_ := 0
    vehicle_state_ := VehicleStateType.Unknown }

end RemoteControl

/-! ## CommonStructs.hpp: indexed access, conversions, `GeoPoint`, `VehicleState` -/

namespace Axis3

variable {T : Type}

/-- The `operator[]` of `Axis3<T>`: slot `index` of `vals_`, for an index inside the
array. -/
def index (a : Axis3 T) : Fin 3 → T
  | 0 => a.x
  | 1 => a.y
  | 2 => a.z

end Axis3

namespace Axis4

variable {T : Type}

/-- The `operator[]` of `Axis4<T>`; `std::out_of_range` is an `Except.error` with its
message. -/
def index (a : Axis4 T) (index : Nat) : Except String T :=
  if h : index ≤ 2 then
    Except.ok (a.axis3.index ⟨index, Nat.lt_succ_of_le h⟩)
  else if index = 3 then
    Except.ok a.val4
  else
    Except.error ("index must be <= 3 but it was " ++ toString index)

/-- Member `equals4`: the four comparisons `(*this)[i] == other[i]` joined by `&&`, each
slot read through `operator[]`. -/
def equals4 [DecidableEq T] (a other : Axis4 T) : Except String Bool :=
  (a.index 0).bind fun a0 => (other.index 0).bind fun b0 =>
    if a0 = b0 then
      (a.index 1).bind fun a1 => (other.index 1).bind fun b1 =>
        if a1 = b1 then
          (a.index 2).bind fun a2 => (other.index 2).bind fun b2 =>
            if a2 = b2 then
              (a.index 3).bind fun a3 => (other.index 3).bind fun b3 =>
                Except.ok (decide (a3 = b3))
            else Except.ok false
        else Except.ok false
    else Except.ok false

/-- Static member `axis4ToXyz`: `Axis3<T>(axis4[0], axis4[1], axis4[3])`. -/
def axis4ToXyz (axis4 : Axis4 T) : Except String (Axis3 T) :=
  (axis4.index 0).bind fun v0 => (axis4.index 1).bind fun v1 =>
    (axis4.index 3).bind fun v3 => Except.ok ⟨v0, v1, v3⟩

/-- Static member `xyzToAxis4`: `Axis4<T>(xyz[0], xyz[1], 0, xyz[2])`. -/
def xyzToAxis4 [Zero T] (xyz : Axis3 T) : Axis4 T :=
  mk4 (xyz.index 0) (xyz.index 1) 0 (xyz.index 2)

end Axis4

/-- A `double` or `float` member as far as `std::isnan` tells values apart: the quiet
not-a-number, or an exact number. -/
inductive FloatValue where
  | nan
  | num (q : ℚ)
deriving DecidableEq

/-- The test `std::isnan`. -/
def FloatValue.isnan : FloatValue → Bool
  | FloatValue.nan => true
  | FloatValue.num _ => false

/-- The struct `GeoPoint` (the member is spelled `altiude` in the source). -/
structure GeoPoint where
  latitude : FloatValue
  longitude : FloatValue
  altiude : FloatValue
deriving DecidableEq

/-- The value of `GeoPoint::nan()`: a default-constructed `GeoPoint`, every member the
quiet not-a-number. -/
def GeoPoint.nan : GeoPoint := ⟨FloatValue.nan, FloatValue.nan, FloatValue.nan⟩

/-- The class `VehicleState`: the members `state_` and `home_point_`. -/
structure VehicleState where
  state_ : VehicleStateType
  home_point_ : GeoPoint
deriving DecidableEq

namespace VehicleState

/-- A freshly constructed `VehicleState`: `state_ = Unknown`, `home_point_` the default
`GeoPoint`. -/
def fresh : VehicleState := ⟨VehicleStateType.Unknown, GeoPoint.nan⟩

/-- Method `getState()`. -/
def getState (v : VehicleState) : VehicleStateType := v.state_

/-- Method `getHomeGeoPoint()`. -/
def getHomeGeoPoint (v : VehicleState) : GeoPoint := v.home_point_

/-- Method `setState(state, home_point)`; `std::invalid_argument` is an `Except.error`
with its message and the object as it was when the exception left the method. -/
def setState (state : VehicleStateType) (home_point : GeoPoint) (v : VehicleState) :
    Except (String × VehicleState) VehicleState :=
  if state = VehicleStateType.Armed ∧ home_point.latitude.isnan = true then
    Except.error ("home_point must be supplied to set armed state", v)
  else
    Except.ok { v with state_ := state }

/-- Method `setState(state)` with `home_point` left to its default `GeoPoint::nan()`. -/
def setStateDefault (state : VehicleStateType) (v : VehicleState) :
    Except (String × VehicleState) VehicleState :=
  setState state GeoPoint.nan v

/-- The object left by a call of `setState`, whether it returned or threw. -/
def objectOf : Except (String × VehicleState) VehicleState → VehicleState
  | Except.ok v => v
  | Except.error e => e.2

/-- Whether a call of `setState` threw. -/
def threw : Except (String × VehicleState) VehicleState → Bool
  | Except.ok _ => false
  | Except.error _ => true

/-- The object after successive calls `setState(state, home_point)`, one per pair. -/
def afterCalls (v : VehicleState) (calls : List (VehicleStateType × GeoPoint)) :
    VehicleState :=
  calls.foldl (fun acc c => objectOf (setState c.1 c.2 acc)) v

end VehicleState

/-! ## Theorems -/

/-! ### Rounding to binary32 -/

theorem floor_le_roundHalfEven (y : ℚ) : ⌊y⌋ ≤ roundHalfEven y := by
  unfold roundHalfEven
  split_ifs <;> omega

theorem roundHalfEven_neg (y : ℚ) : roundHalfEven (-y) = -roundHalfEven y := by
  by_cases hy : y = (⌊y⌋ : ℚ)
  · have h1 : ⌊-y⌋ = -⌊y⌋ := by
      rw [hy, ← Int.cast_neg, Int.floor_intCast, Int.floor_intCast]
    have h2 : -y - ((-⌊y⌋ : ℤ) : ℚ) = 0 := by
      push_cast
      linarith
    have h3 : y - (⌊y⌋ : ℚ) = 0 := by linarith
    unfold roundHalfEven
    rw [h1, h2, h3]
    norm_num
  · have hlt : (⌊y⌋ : ℚ) < y := lt_of_le_of_ne (Int.floor_le y) (Ne.symm hy)
    have hlt2 : y < ⌊y⌋ + 1 := Int.lt_floor_add_one y
    have h1 : ⌊-y⌋ = -⌊y⌋ - 1 := by
      rw [Int.floor_eq_iff]
      push_cast
      constructor <;> linarith
    unfold roundHalfEven
    rw [h1]
    push_cast
    by_cases ha : y - ⌊y⌋ < 1 / 2
    · have hb : ¬ (-y - (-(⌊y⌋ : ℚ) - 1) < 1 / 2) := by
        intro h; linarith
      have hc : (1 : ℚ) / 2 < -y - (-(⌊y⌋ : ℚ) - 1) := by linarith
      simp only [ha, hb, hc, if_true, if_false]
      omega
    · by_cases hb : (1 : ℚ) / 2 < y - ⌊y⌋
      · have hc : -y - (-(⌊y⌋ : ℚ) - 1) < 1 / 2 := by linarith
        simp only [ha, hb, hc, if_true, if_false]
        omega
      · have hc : ¬ (-y - (-(⌊y⌋ : ℚ) - 1) < 1 / 2) := by
          intro h; linarith
        have hd : ¬ ((1 : ℚ) / 2 < -y - (-(⌊y⌋ : ℚ) - 1)) := by
          intro h; linarith
        simp only [ha, hb, hc, hd, if_false]
        split_ifs <;> omega

theorem float32Exponent_neg (x : ℚ) : float32Exponent (-x) = float32Exponent x := by
  unfold float32Exponent
  rw [abs_neg]

theorem float32_neg (x : ℚ) : float32 (-x) = -float32 x := by
  unfold float32
  rw [float32Exponent_neg, neg_div, roundHalfEven_neg]
  push_cast
  ring

theorem half_le_float32 (x : ℚ) (hx : 1 / 2 ≤ x) : 1 / 2 ≤ float32 x := by
  have hpos : 0 < x := by linarith
  have habs : |x| = x := abs_of_pos hpos
  have hlog : (-1 : ℤ) ≤ Int.log 2 x := by
    rw [← Int.zpow_le_iff_le_log (by norm_num) hpos]
    norm_num
    linarith
  have hle : (2 : ℚ) ^ Int.log 2 x ≤ x := Int.zpow_log_le_self (by norm_num) hpos
  have he : float32Exponent x = Int.log 2 x - 23 := by
    unfold float32Exponent
    rw [habs]
    omega
  unfold float32
  rw [he]
  have h2pos : (0 : ℚ) < 2 ^ (Int.log 2 x - 23) := by positivity
  have hq : ((2 ^ 23 : ℤ) : ℚ) ≤ x / 2 ^ (Int.log 2 x - 23) := by
    rw [le_div_iff₀ h2pos]
    push_cast
    calc (2 : ℚ) ^ 23 * 2 ^ (Int.log 2 x - 23) = 2 ^ Int.log 2 x := by
          rw [← zpow_natCast, ← zpow_add₀ (by norm_num)]
          norm_num
      _ ≤ x := hle
  have hfl : (2 ^ 23 : ℤ) ≤ ⌊x / 2 ^ (Int.log 2 x - 23)⌋ := Int.le_floor.mpr hq
  have hr := le_trans hfl (floor_le_roundHalfEven _)
  have hr2 : ((2 ^ 23 : ℤ) : ℚ) ≤ (roundHalfEven (x / 2 ^ (Int.log 2 x - 23)) : ℚ) := by
    exact_mod_cast hr
  calc (1 : ℚ) / 2 = 2 ^ (-1 : ℤ) := by norm_num
    _ ≤ 2 ^ Int.log 2 x := zpow_le_zpow_right₀ (by norm_num) hlog
    _ = 2 ^ 23 * 2 ^ (Int.log 2 x - 23) := by
          rw [← zpow_natCast, ← zpow_add₀ (by norm_num)]
          norm_num
    _ ≤ roundHalfEven (x / 2 ^ (Int.log 2 x - 23)) * 2 ^ (Int.log 2 x - 23) := by
          apply mul_le_mul_of_nonneg_right _ (le_of_lt h2pos)
          push_cast at hr2
          exact hr2

theorem fadd_zero_left (x : TReal) (hx : float32 x = x) : fadd 0 x = x := by
  unfold fadd
  rw [zero_add, hx]

theorem fsub_zero_left (x : TReal) (hx : float32 x = x) : fsub 0 x = -x := by
  unfold fsub
  rw [zero_sub, float32_neg, hx]

theorem half_le_fsub_one (x : TReal) (hx : x < 1 / 2) : 1 / 2 ≤ fsub 1 x := by
  unfold fsub
  exact half_le_float32 _ (by linarith)

namespace RemoteControl

/-! ### One tick, unfolded -/

theorem sub64_of_le (a b : Nat) (hb : b ≤ a) (ha : a < 2 ^ 64) : sub64 a b = a - b := by
  unfold sub64
  omega

theorem sub64_lt (a b : Nat) : sub64 a b < 2 ^ 64 := by
  unfold sub64
  omega

theorem add64_of_lt (a b : Nat) (h : a + b < 2 ^ 64) : add64 a b = a + b := by
  unfold add64
  omega

theorem getActionRequest_eq (p : Params) (channels : Axis4 TReal) :
    getActionRequest p channels =
      if armGesture p.rc.action_request_tolerance channels then RcRequestType.ArmRequest
      else if disarmGesture p.rc.action_request_tolerance channels then
        RcRequestType.DisarmRequest
      else if neutralGesture p.rc.action_request_tolerance channels then
        RcRequestType.NeutralRequest
      else RcRequestType.None := rfl

theorem update_of_qualifying (p : Params) (b : Board) (s : RemoteControl)
    (hq : p.rc.read_interval_ms < elapsed b s) :
    update p b s =
      stateMachine p (elapsed b s) (readChannels p b) (getActionRequest p (readChannels p b))
        (updateGoalMode p b { s with last_rec_read_ := b.millis % 2 ^ 64 }) := by
  have h : ¬ sub64 (b.millis % 2 ^ 64) s.last_rec_read_ ≤ p.rc.read_interval_ms := by
    unfold elapsed at hq
    omega
  simp only [update, h, if_false, elapsed]

theorem update_of_not_qualifying (p : Params) (b : Board) (s : RemoteControl)
    (hq : elapsed b s ≤ p.rc.read_interval_ms) : update p b s = Except.ok s := by
  unfold elapsed at hq
  simp only [update, hq, if_true]

@[simp]
theorem updateGoalMode_vehicle_state (p : Params) (b : Board) (s : RemoteControl) :
    (updateGoalMode p b s).vehicle_state_ = s.vehicle_state_ := by
  unfold updateGoalMode
  simp only []
  split_ifs <;> rfl

@[simp]
theorem updateGoalMode_request_duration (p : Params) (b : Board) (s : RemoteControl) :
    (updateGoalMode p b s).request_duration_ = s.request_duration_ := by
  unfold updateGoalMode
  simp only []
  split_ifs <;> rfl

@[simp]
theorem updateGoalMode_goal (p : Params) (b : Board) (s : RemoteControl) :
    (updateGoalMode p b s).goal_ = s.goal_ := by
  unfold updateGoalMode
  simp only []
  split_ifs <;> rfl

@[simp]
theorem updateGoalMode_last_rec_read (p : Params) (b : Board) (s : RemoteControl) :
    (updateGoalMode p b s).last_rec_read_ = s.last_rec_read_ := by
  unfold updateGoalMode
  simp only []
  split_ifs <;> rfl

@[simp]
theorem updateGoalMode_angle_mode (p : Params) (b : Board) (s : RemoteControl) :
    (updateGoalMode p b s).angle_mode_ = b.readChannel p.rc.rate_level_mode_channel := by
  unfold updateGoalMode
  simp only []
  split_ifs <;> rfl

/-! ### The example boards -/

theorem armSticks_gesture (t : Nat) :
    getActionRequest exampleParams (readChannels exampleParams (armSticks t)) =
      RcRequestType.ArmRequest := by
  have h : readChannels exampleParams (armSticks t) = Axis4.mk4 (-1) 1 1 0 := rfl
  rw [h]
  decide!

theorem neutralSticks_gesture (t : Nat) :
    getActionRequest exampleParams (readChannels exampleParams (neutralSticks t)) =
      RcRequestType.NeutralRequest := by
  have h : readChannels exampleParams (neutralSticks t) = Axis4.mk4 0 0 0 0 := rfl
  rw [h]
  decide!

theorem disarmSticks_gesture (t : Nat) :
    getActionRequest exampleParams (readChannels exampleParams (disarmSticks t)) =
      RcRequestType.DisarmRequest := by
  have h : readChannels exampleParams (disarmSticks t) = Axis4.mk4 1 1 (-1) 0 := rfl
  rw [h]
  decide!

/-! ### Gesture classification -/

theorem armGesture_iff (tolerance : TReal) (channels : Axis4 TReal) :
    armGesture tolerance channels = true ↔
      (channels.axis3.yaw ≥ fsub 1 tolerance ∧ channels.throttle ≤ tolerance ∧
        channels.axis3.roll ≤ -(fsub 1 tolerance) ∧
        fdiv (fadd channels.axis3.pitch 1) 2 ≥ fsub 1 tolerance) := by
  simp only [armGesture, Bool.and_eq_true, decide_eq_true_eq]
  tauto

theorem disarmGesture_iff (tolerance : TReal) (channels : Axis4 TReal) :
    disarmGesture tolerance channels = true ↔
      (channels.axis3.yaw ≤ -(fsub 1 tolerance) ∧ channels.throttle ≤ tolerance ∧
        channels.axis3.roll ≥ fsub 1 tolerance ∧
        fdiv (fadd channels.axis3.pitch 1) 2 ≥ fsub 1 tolerance) := by
  simp only [disarmGesture, Bool.and_eq_true, decide_eq_true_eq]
  tauto

theorem neutralGesture_iff (tolerance : TReal) (channels : Axis4 TReal)
    (hf : float32 tolerance = tolerance) :
    neutralGesture tolerance channels = true ↔
      ((-tolerance ≤ channels.axis3.roll ∧ channels.axis3.roll ≤ tolerance) ∧
        (-tolerance ≤ channels.axis3.pitch ∧ channels.axis3.pitch ≤ tolerance) ∧
        (-tolerance ≤ channels.axis3.yaw ∧ channels.axis3.yaw ≤ tolerance)) := by
  simp only [neutralGesture, isInTolerance, Bool.and_eq_true, decide_eq_true_eq,
    fadd_zero_left tolerance hf, fsub_zero_left tolerance hf, ge_iff_le]
  tauto

/-- C1, as stated, fails: with tolerance 0.1f the code compares against `1 - tolerance`
rounded to binary32, which is 0.9f = 15099494 / 2 ^ 24. The sticks roll = −0.9f,
pitch = 1, yaw = 0.9f, throttle = 0 are answered `ArmRequest` although yaw < 1 − ε; and
the sticks roll = −1, pitch = 13421772 / 2 ^ 24, yaw = 1, throttle = 0 are answered
`ArmRequest` although (pitch + 1) / 2 < 1 − ε and pitch < 1 − 2ε. -/
theorem arm_thresholds_are_rounded :
    fsub 1 float32Params.rc.action_request_tolerance = 15099494 / 16777216 ∧
    getActionRequest float32Params
      (Axis4.mk4 (-15099494 / 16777216) 1 (15099494 / 16777216) 0) =
      RcRequestType.ArmRequest ∧
    ¬ ((15099494 : TReal) / 16777216 ≥ 1 - float32Params.rc.action_request_tolerance) ∧
    getActionRequest float32Params (Axis4.mk4 (-1) (13421772 / 16777216) 1 0) =
      RcRequestType.ArmRequest ∧
    ¬ (((13421772 : TReal) / 16777216 + 1) / 2 ≥
        1 - float32Params.rc.action_request_tolerance) ∧
    ¬ ((13421772 : TReal) / 16777216 ≥ 1 - 2 * float32Params.rc.action_request_tolerance) := by
  refine ⟨by decide!, by decide!, ?_, by decide!, ?_, ?_⟩ <;>
    norm_num [float32Params, exampleParams]

/-- C1, amended: `getActionRequest` answers `ArmRequest` exactly when yaw ≥ s,
throttle ≤ ε, roll ≤ −s and q ≥ s, where ε is the configured tolerance, s is 1 − ε
rounded to binary32 and q is (pitch + 1) / 2 as computed in binary32. Whenever those two
computations are exact (s = 1 − ε and q = (pitch + 1) / 2) this is the condition
yaw ≥ 1 − ε, throttle ≤ ε, roll ≤ −(1 − ε), (pitch + 1) / 2 ≥ 1 − ε on exact numbers,
whose last part is the same as pitch ≥ 1 − 2ε. -/
theorem getActionRequest_arm_iff (p : Params) (channels : Axis4 TReal) :
    (getActionRequest p channels = RcRequestType.ArmRequest ↔
      (channels.axis3.yaw ≥ fsub 1 p.rc.action_request_tolerance ∧
        channels.throttle ≤ p.rc.action_request_tolerance ∧
        channels.axis3.roll ≤ -(fsub 1 p.rc.action_request_tolerance) ∧
        fdiv (fadd channels.axis3.pitch 1) 2 ≥ fsub 1 p.rc.action_request_tolerance)) ∧
    (fsub 1 p.rc.action_request_tolerance = 1 - p.rc.action_request_tolerance →
      fdiv (fadd channels.axis3.pitch 1) 2 = (channels.axis3.pitch + 1) / 2 →
      ((getActionRequest p channels = RcRequestType.ArmRequest ↔
        (channels.axis3.yaw ≥ 1 - p.rc.action_request_tolerance ∧
          channels.throttle ≤ p.rc.action_request_tolerance ∧
          channels.axis3.roll ≤ -(1 - p.rc.action_request_tolerance) ∧
          (channels.axis3.pitch + 1) / 2 ≥ 1 - p.rc.action_request_tolerance)) ∧
      ((channels.axis3.pitch + 1) / 2 ≥ 1 - p.rc.action_request_tolerance ↔
        channels.axis3.pitch ≥ 1 - 2 * p.rc.action_request_tolerance))) := by
  have hmain : getActionRequest p channels = RcRequestType.ArmRequest ↔
      (channels.axis3.yaw ≥ fsub 1 p.rc.action_request_tolerance ∧
        channels.throttle ≤ p.rc.action_request_tolerance ∧
        channels.axis3.roll ≤ -(fsub 1 p.rc.action_request_tolerance) ∧
        fdiv (fadd channels.axis3.pitch 1) 2 ≥ fsub 1 p.rc.action_request_tolerance) := by
    rw [getActionRequest_eq, ← armGesture_iff]
    cases armGesture p.rc.action_request_tolerance channels
    · simp only [Bool.false_eq_true, if_false, iff_false]
      split_ifs <;> simp
    · simp
  refine ⟨hmain, ?_⟩
  intro hs hq
  rw [hs, hq] at hmain
  refine ⟨hmain, ?_⟩
  constructor <;> intro h <;> linarith

/-- Witness for `getActionRequest_arm_iff`: tolerance 1/8, where 1 − ε = 7/8 is a
binary32 number, and the arming corner roll = −1, pitch = 1, yaw = 1, throttle = 0. -/
theorem getActionRequest_arm_iff_witness :
    fsub 1 (1 / 8) = 1 - 1 / 8 ∧
    fdiv (fadd (Axis4.mk4 (-1) 1 1 0 : Axis4 TReal).axis3.pitch 1) 2 =
      ((Axis4.mk4 (-1) 1 1 0 : Axis4 TReal).axis3.pitch + 1) / 2 ∧
    (getActionRequest
        { exampleParams with
          rc := { exampleParams.rc with action_request_tolerance := 1 / 8 } }
        (Axis4.mk4 (-1) 1 1 0) = RcRequestType.ArmRequest ↔
      ((Axis4.mk4 (-1) 1 1 0 : Axis4 TReal).axis3.yaw ≥ 1 - 1 / 8 ∧
        (Axis4.mk4 (-1) 1 1 0 : Axis4 TReal).throttle ≤ 1 / 8 ∧
        (Axis4.mk4 (-1) 1 1 0 : Axis4 TReal).axis3.roll ≤ -(1 - 1 / 8) ∧
        ((Axis4.mk4 (-1) 1 1 0 : Axis4 TReal).axis3.pitch + 1) / 2 ≥ 1 - 1 / 8)) :=
  have hs : fsub 1 (1 / 8) = 1 - 1 / 8 := by decide!
  have hq : fdiv (fadd (Axis4.mk4 (-1) 1 1 0 : Axis4 TReal).axis3.pitch 1) 2 =
      ((Axis4.mk4 (-1) 1 1 0 : Axis4 TReal).axis3.pitch + 1) / 2 := by decide!
  ⟨hs, hq,
    ((getActionRequest_arm_iff
      { exampleParams with rc := { exampleParams.rc with action_request_tolerance := 1 / 8 } }
      (Axis4.mk4 (-1) 1 1 0)).2 hs hq).1⟩

/-- C2, as stated, fails: with tolerance 1/2 the stick vector roll = −1/2, pitch = 0,
yaw = 1/2, throttle = 0 satisfies both the `ArmRequest` corner and the `NeutralRequest`
band, and `getActionRequest` answers `ArmRequest` only because that test comes first. -/
theorem gestures_overlap_at_half :
    armGesture (1 / 2) (Axis4.mk4 (-1 / 2) 0 (1 / 2) 0) = true ∧
      neutralGesture (1 / 2) (Axis4.mk4 (-1 / 2) 0 (1 / 2) 0) = true ∧
      getActionRequest
          { exampleParams with
            rc := { exampleParams.rc with action_request_tolerance := 1 / 2 } }
          (Axis4.mk4 (-1 / 2) 0 (1 / 2) 0) = RcRequestType.ArmRequest := by
  refine ⟨by decide!, by decide!, by decide!⟩

/-- C2, amended: for every binary32 tolerance ε < 1/2 and every stick vector, the three
gesture conditions of `getActionRequest`, with the thresholds as the code computes them,
are pairwise exclusive (boundary values included), so each answer is given exactly when
its own condition holds, whatever the order of the tests. -/
theorem gestures_exclusive_of_lt_half (p : Params) (channels : Axis4 TReal)
    (hf : float32 p.rc.action_request_tolerance = p.rc.action_request_tolerance)
    (htol : p.rc.action_request_tolerance < 1 / 2) :
    ¬ (armGesture p.rc.action_request_tolerance channels = true ∧
        disarmGesture p.rc.action_request_tolerance channels = true) ∧
    ¬ (armGesture p.rc.action_request_tolerance channels = true ∧
        neutralGesture p.rc.action_request_tolerance channels = true) ∧
    ¬ (disarmGesture p.rc.action_request_tolerance channels = true ∧
        neutralGesture p.rc.action_request_tolerance channels = true) ∧
    (getActionRequest p channels = RcRequestType.ArmRequest ↔
      armGesture p.rc.action_request_tolerance channels = true) ∧
    (getActionRequest p channels = RcRequestType.DisarmRequest ↔
      disarmGesture p.rc.action_request_tolerance channels = true) ∧
    (getActionRequest p channels = RcRequestType.NeutralRequest ↔
      neutralGesture p.rc.action_request_tolerance channels = true) ∧
    (getActionRequest p channels = RcRequestType.None ↔
      (armGesture p.rc.action_request_tolerance channels = false ∧
        disarmGesture p.rc.action_request_tolerance channels = false ∧
        neutralGesture p.rc.action_request_tolerance channels = false)) := by
  have hs := half_le_fsub_one p.rc.action_request_tolerance htol
  have had : ¬ (armGesture p.rc.action_request_tolerance channels = true ∧
      disarmGesture p.rc.action_request_tolerance channels = true) := by
    rw [armGesture_iff, disarmGesture_iff]
    rintro ⟨⟨h1, _⟩, ⟨h2, _⟩⟩
    linarith
  have han : ¬ (armGesture p.rc.action_request_tolerance channels = true ∧
      neutralGesture p.rc.action_request_tolerance channels = true) := by
    rw [armGesture_iff, neutralGesture_iff _ _ hf]
    rintro ⟨⟨h1, _⟩, ⟨_, _, ⟨_, h2⟩⟩⟩
    linarith
  have hdn : ¬ (disarmGesture p.rc.action_request_tolerance channels = true ∧
      neutralGesture p.rc.action_request_tolerance channels = true) := by
    rw [disarmGesture_iff, neutralGesture_iff _ _ hf]
    rintro ⟨⟨h1, _⟩, ⟨_, _, ⟨h2, _⟩⟩⟩
    linarith
  refine ⟨had, han, hdn, ?_⟩
  rw [getActionRequest_eq]
  cases ha : armGesture p.rc.action_request_tolerance channels <;>
    cases hd : disarmGesture p.rc.action_request_tolerance channels <;>
    cases hn : neutralGesture p.rc.action_request_tolerance channels <;>
    simp_all

/-- Witness for `gestures_exclusive_of_lt_half`: tolerance 0.1f and the arming corner. -/
theorem gestures_exclusive_of_lt_half_witness :
    float32 float32Params.rc.action_request_tolerance =
      float32Params.rc.action_request_tolerance ∧
    float32Params.rc.action_request_tolerance < 1 / 2 ∧
    (getActionRequest float32Params (Axis4.mk4 (-1) 1 1 0) = RcRequestType.ArmRequest ↔
      armGesture float32Params.rc.action_request_tolerance (Axis4.mk4 (-1) 1 1 0) = true) :=
  have hf : float32 float32Params.rc.action_request_tolerance =
      float32Params.rc.action_request_tolerance := by decide!
  have htol : float32Params.rc.action_request_tolerance < 1 / 2 := by
    norm_num [float32Params, exampleParams]
  ⟨hf, htol,
    (gestures_exclusive_of_lt_half float32Params (Axis4.mk4 (-1) 1 1 0) hf htol).2.2.2.1⟩

/-! ### Single ticks of the state machine -/

/-- C3: on a qualifying tick in state `Inactive` with gesture `ArmRequest`, `update()`
returns; the accumulator is advanced to the (64-bit) sum `request_duration_ + dt`, which
is the exact sum whenever that fits `uint64_t`; the state becomes `BeingArmed`, with the
accumulator back at 0, exactly when the sum is strictly greater than `arm_duration`, and
otherwise (in particular when the sum equals `arm_duration`) the state stays `Inactive`
and the accumulator holds the sum; the goal vector is unchanged in both cases. -/
theorem update_inactive_arm (p : Params) (b : Board) (s : RemoteControl)
    (hq : p.rc.read_interval_ms < elapsed b s)
    (hs : s.vehicle_state_ = VehicleStateType.Inactive)
    (ha : getActionRequest p (readChannels p b) = RcRequestType.ArmRequest) :
    returns (update p b s) = true ∧
    ((stateOf (update p b s)).vehicle_state_ = VehicleStateType.BeingArmed ↔
      p.rc.arm_duration < add64 s.request_duration_ (elapsed b s)) ∧
    (p.rc.arm_duration < add64 s.request_duration_ (elapsed b s) →
      (stateOf (update p b s)).request_duration_ = 0) ∧
    (add64 s.request_duration_ (elapsed b s) ≤ p.rc.arm_duration →
      (stateOf (update p b s)).vehicle_state_ = VehicleStateType.Inactive ∧
      (stateOf (update p b s)).request_duration_ = add64 s.request_duration_ (elapsed b s)) ∧
    (stateOf (update p b s)).goal_ = s.goal_ ∧
    (s.request_duration_ + elapsed b s < 2 ^ 64 →
      add64 s.request_duration_ (elapsed b s) = s.request_duration_ + elapsed b s) := by
  rw [update_of_qualifying p b s hq]
  unfold stateMachine
  simp only [updateGoalMode_vehicle_state, hs, ha, if_true, updateGoalMode_request_duration]
  by_cases h : p.rc.arm_duration < add64 s.request_duration_ (elapsed b s)
  · have h2 : ¬ add64 s.request_duration_ (elapsed b s) ≤ p.rc.arm_duration := by omega
    simp [h, h2, returns, stateOf]
    exact fun h3 => add64_of_lt _ _ h3
  · have h2 : add64 s.request_duration_ (elapsed b s) ≤ p.rc.arm_duration := by omega
    simp [h, h2, returns, stateOf]
    exact fun h3 => add64_of_lt _ _ h3

/-- Witness for `update_inactive_arm`: after `reset()`, the arming gesture read at
100 ms gives the sum 100 = `arm_duration`, and the state stays `Inactive`. -/
theorem update_inactive_arm_witness :
    exampleParams.rc.read_interval_ms < elapsed (armSticks 100) (reset exampleParams blank) ∧
    (reset exampleParams blank).vehicle_state_ = VehicleStateType.Inactive ∧
    getActionRequest exampleParams (readChannels exampleParams (armSticks 100)) =
      RcRequestType.ArmRequest ∧
    (stateOf (update exampleParams (armSticks 100) (reset exampleParams blank))).vehicle_state_
      = VehicleStateType.Inactive :=
  have hq : exampleParams.rc.read_interval_ms <
      elapsed (armSticks 100) (reset exampleParams blank) := by
    simp [exampleParams, elapsed, armSticks, sticks, reset, sub64]
  have ha : getActionRequest exampleParams (readChannels exampleParams (armSticks 100)) =
      RcRequestType.ArmRequest := armSticks_gesture 100
  ⟨hq, rfl, ha,
    ((update_inactive_arm exampleParams (armSticks 100) (reset exampleParams blank) hq rfl
      ha).2.2.2.1 (by
        simp [exampleParams, elapsed, armSticks, sticks, reset, sub64, add64])).1⟩

/-- C4 at a concrete input: with holds of 100 ms, the arming gesture is read at 60 ms
(accumulator 60), centred sticks are read at 120 ms, and the accumulator is still 60
instead of 0; the arming gesture read again at 180 ms then moves the state to
`BeingArmed` although the gesture was interrupted. -/
theorem accumulator_survives_interruption :
    (afterTicks exampleParams (reset exampleParams blank) [armSticks 60]).request_duration_
      = 60 ∧
    getActionRequest exampleParams (readChannels exampleParams (neutralSticks 120)) =
      RcRequestType.NeutralRequest ∧
    (afterTicks exampleParams (reset exampleParams blank)
      [armSticks 60, neutralSticks 120]).vehicle_state_ = VehicleStateType.Inactive ∧
    (afterTicks exampleParams (reset exampleParams blank)
      [armSticks 60, neutralSticks 120]).request_duration_ = 60 ∧
    (afterTicks exampleParams (reset exampleParams blank)
      [armSticks 60, neutralSticks 120, armSticks 180]).vehicle_state_ =
        VehicleStateType.BeingArmed := by
  have h1 : update exampleParams (armSticks 60) (reset exampleParams blank) = Except.ok
      { goal_ := Axis4.zero, goal_mode_ := GoalMode.getStandardAngleMode, last_rec_read_ := 60,
        angle_mode_ := 0, last_angle_mode_ := 0, request_duration_ := 60,
        vehicle_state_ := VehicleStateType.Inactive } := by
    rw [update_of_qualifying _ _ _
      (by simp [exampleParams, elapsed, armSticks, sticks, reset, sub64]), armSticks_gesture]
    norm_num [stateMachine, updateGoalMode, exampleParams, reset, blank, elapsed, sub64, add64,
      armSticks, sticks, TReal_min]
  have h2 : update exampleParams (neutralSticks 120)
      { goal_ := Axis4.zero, goal_mode_ := GoalMode.getStandardAngleMode, last_rec_read_ := 60,
        angle_mode_ := 0, last_angle_mode_ := 0, request_duration_ := 60,
        vehicle_state_ := VehicleStateType.Inactive } = Except.ok
      { goal_ := Axis4.zero, goal_mode_ := GoalMode.getStandardAngleMode, last_rec_read_ := 120,
        angle_mode_ := 0, last_angle_mode_ := 0, request_duration_ := 60,
        vehicle_state_ := VehicleStateType.Inactive } := by
    rw [update_of_qualifying _ _ _
      (by simp [exampleParams, elapsed, neutralSticks, sticks, sub64]), neutralSticks_gesture]
    norm_num [stateMachine, updateGoalMode, exampleParams, elapsed, sub64, add64,
      neutralSticks, sticks]
    simp
  have h3 : update exampleParams (armSticks 180)
      { goal_ := Axis4.zero, goal_mode_ := GoalMode.getStandardAngleMode, last_rec_read_ := 120,
        angle_mode_ := 0, last_angle_mode_ := 0, request_duration_ := 60,
        vehicle_state_ := VehicleStateType.Inactive } = Except.ok
      { goal_ := Axis4.zero, goal_mode_ := GoalMode.getStandardAngleMode, last_rec_read_ := 180,
        angle_mode_ := 0, last_angle_mode_ := 0, request_duration_ := 0,
        vehicle_state_ := VehicleStateType.BeingArmed } := by
    rw [update_of_qualifying _ _ _
      (by simp [exampleParams, elapsed, armSticks, sticks, sub64]), armSticks_gesture]
    norm_num [stateMachine, updateGoalMode, exampleParams, elapsed, sub64, add64,
      armSticks, sticks]
  simp [afterTicks, h1, h2, h3, stateOf, neutralSticks_gesture]

/-- C6, as stated, fails: the angular goal axes hold binary32 products, not the products
of the numbers. An armed object reads yaw = 0.1f (roll = pitch = 0, throttle = 1/2,
selector 0, below the split) on a qualifying tick; the level-mode yaw limit is 3, and the
yaw goal becomes 5033165 / 2 ^ 24, which is not 3 × 0.1f = 40265319 / 2 ^ 27. -/
theorem armed_goal_product_is_rounded :
    armedExample.vehicle_state_ = VehicleStateType.Armed ∧
    float32Params.rc.read_interval_ms <
      elapsed (sticks 600 0 0 (13421773 / 134217728) (1 / 2) 0) armedExample ∧
    getActionRequest float32Params
      (readChannels float32Params (sticks 600 0 0 (13421773 / 134217728) (1 / 2) 0)) ≠
      RcRequestType.DisarmRequest ∧
    (sticks 600 0 0 (13421773 / 134217728) (1 / 2) 0).readChannel
      float32Params.rc.rate_level_mode_channel < float32Params.rc.max_angle_level_switch ∧
    (stateOf (update float32Params (sticks 600 0 0 (13421773 / 134217728) (1 / 2) 0)
      armedExample)).goal_.axis3.z = 5033165 / 16777216 ∧
    float32Params.angle_level_pid.max_limit.z *
      (sticks 600 0 0 (13421773 / 134217728) (1 / 2) 0).readChannel
        float32Params.rc.channels.axis3.z = 40265319 / 134217728 ∧
    (stateOf (update float32Params (sticks 600 0 0 (13421773 / 134217728) (1 / 2) 0)
      armedExample)).goal_.axis3.z ≠
      float32Params.angle_level_pid.max_limit.z *
        (sticks 600 0 0 (13421773 / 134217728) (1 / 2) 0).readChannel
          float32Params.rc.channels.axis3.z := by
  refine ⟨rfl, by decide!, by decide!, by decide!, by decide!, by decide!, by decide!⟩

/-- C6, amended: on a qualifying tick in state `Armed` whose gesture is not
`DisarmRequest`, `update()` returns, the state stays `Armed`, the accumulator is 0, the
goal throttle is `min_angling_throttle` when the raw throttle is at most that and the raw
throttle otherwise (their maximum), and each angular goal axis is the product, rounded to
binary32, of the raw stick axis with the same slot of `angle_level_pid.max_limit` when the
selector reading of this tick is below `max_angle_level_switch` and of
`angle_rate_pid.max_limit` otherwise. -/
theorem update_armed_goal (p : Params) (b : Board) (s : RemoteControl)
    (hq : p.rc.read_interval_ms < elapsed b s)
    (hs : s.vehicle_state_ = VehicleStateType.Armed)
    (ha : getActionRequest p (readChannels p b) ≠ RcRequestType.DisarmRequest) :
    returns (update p b s) = true ∧
    (stateOf (update p b s)).vehicle_state_ = VehicleStateType.Armed ∧
    (stateOf (update p b s)).request_duration_ = 0 ∧
    (stateOf (update p b s)).goal_.throttle =
      (if b.readChannel p.rc.channels.throttle ≤ p.rc.min_angling_throttle then
        p.rc.min_angling_throttle
      else b.readChannel p.rc.channels.throttle) ∧
    (stateOf (update p b s)).goal_.throttle =
      max (b.readChannel p.rc.channels.throttle) p.rc.min_angling_throttle ∧
    (stateOf (update p b s)).goal_.axis3 =
      (if b.readChannel p.rc.rate_level_mode_channel < p.rc.max_angle_level_switch then
        ⟨float32 (p.angle_level_pid.max_limit.x * b.readChannel p.rc.channels.axis3.x),
          float32 (p.angle_level_pid.max_limit.y * b.readChannel p.rc.channels.axis3.y),
          float32 (p.angle_level_pid.max_limit.z * b.readChannel p.rc.channels.axis3.z)⟩
      else
        ⟨float32 (p.angle_rate_pid.max_limit.x * b.readChannel p.rc.channels.axis3.x),
          float32 (p.angle_rate_pid.max_limit.y * b.readChannel p.rc.channels.axis3.y),
          float32 (p.angle_rate_pid.max_limit.z * b.readChannel p.rc.channels.axis3.z)⟩) := by
  rw [update_of_qualifying p b s hq]
  unfold stateMachine
  simp only [updateGoalMode_vehicle_state, hs, ha, if_false]
  unfold updateGoal
  simp only [returns, stateOf, updateGoalMode_angle_mode, Axis4.throttle, readChannels,
    Axis3.colWiseMultiply3, fmul]
  refine ⟨trivial, ?_, ?_, ?_, ?_, ?_⟩
  · split_ifs <;> simp
  · split_ifs <;> rfl
  · split_ifs <;> rfl
  · by_cases h : b.readChannel p.rc.channels.val4 ≤ p.rc.min_angling_throttle
    · rw [max_eq_right h]
      split_ifs <;> rfl
    · rw [max_eq_left (le_of_lt (not_le.mp h))]
      split_ifs <;> rfl
  · split_ifs <;> rfl

/-- Witness for `update_armed_goal`: an armed object reads centred sticks with raw
throttle 0, and the goal throttle is `min_angling_throttle` = 1/15. -/
theorem update_armed_goal_witness :
    exampleParams.rc.read_interval_ms <
      elapsed (neutralSticks 50) { blank with vehicle_state_ := VehicleStateType.Armed } ∧
    getActionRequest exampleParams (readChannels exampleParams (neutralSticks 50)) ≠
      RcRequestType.DisarmRequest ∧
    (stateOf (update exampleParams (neutralSticks 50)
      { blank with vehicle_state_ := VehicleStateType.Armed })).goal_.throttle =
      max ((neutralSticks 50).readChannel exampleParams.rc.channels.throttle)
        exampleParams.rc.min_angling_throttle :=
  have hq : exampleParams.rc.read_interval_ms <
      elapsed (neutralSticks 50) { blank with vehicle_state_ := VehicleStateType.Armed } := by
    simp [exampleParams, elapsed, neutralSticks, sticks, blank, sub64]
  have ha : getActionRequest exampleParams (readChannels exampleParams (neutralSticks 50)) ≠
      RcRequestType.DisarmRequest := by
    rw [neutralSticks_gesture]
    simp
  ⟨hq, ha, (update_armed_goal exampleParams (neutralSticks 50)
    { blank with vehicle_state_ := VehicleStateType.Armed } hq rfl ha).2.2.2.2.1⟩

/-! ### Runs of ticks -/

theorem elapsed_of_le (b : Board) (s : RemoteControl) (h1 : s.last_rec_read_ ≤ b.millis)
    (h2 : b.millis < 2 ^ 64) : elapsed b s = b.millis - s.last_rec_read_ := by
  unfold elapsed sub64
  omega

theorem elapsed_eq_sub64 (b : Board) (s : RemoteControl) :
    elapsed b s = sub64 b.millis s.last_rec_read_ := by
  unfold elapsed sub64
  omega

theorem updateGoal_fields (p : Params) (channels : Axis4 TReal) (s : RemoteControl) :
    (updateGoal p channels s).vehicle_state_ = s.vehicle_state_ ∧
    (updateGoal p channels s).request_duration_ = s.request_duration_ ∧
    (updateGoal p channels s).last_rec_read_ = s.last_rec_read_ := by
  unfold updateGoal
  simp only []
  split_ifs <;> exact ⟨rfl, rfl, rfl⟩

theorem stateOf_update_last_rec_read (p : Params) (b : Board) (s : RemoteControl)
    (hq : p.rc.read_interval_ms < elapsed b s) :
    (stateOf (update p b s)).last_rec_read_ = b.millis % 2 ^ 64 := by
  rw [update_of_qualifying p b s hq]
  unfold stateMachine
  cases hv : s.vehicle_state_ <;>
    simp only [updateGoalMode_vehicle_state, hv] <;>
    (try split_ifs) <;>
    simp [stateOf, (updateGoal_fields _ _ _).2.2]

theorem step_inactive_arm (p : Params) (b : Board) (s : RemoteControl)
    (hq : p.rc.read_interval_ms < elapsed b s)
    (hs : s.vehicle_state_ = VehicleStateType.Inactive)
    (ha : getActionRequest p (readChannels p b) = RcRequestType.ArmRequest) :
    ∃ s1, update p b s = Except.ok s1 ∧ s1.last_rec_read_ = b.millis % 2 ^ 64 ∧
      (p.rc.arm_duration < add64 s.request_duration_ (elapsed b s) →
        s1.vehicle_state_ = VehicleStateType.BeingArmed ∧ s1.request_duration_ = 0) ∧
      (add64 s.request_duration_ (elapsed b s) ≤ p.rc.arm_duration →
        s1.vehicle_state_ = VehicleStateType.Inactive ∧
        s1.request_duration_ = add64 s.request_duration_ (elapsed b s)) := by
  rw [update_of_qualifying p b s hq]
  unfold stateMachine
  simp only [updateGoalMode_vehicle_state, hs, ha, if_true, updateGoalMode_request_duration]
  by_cases h : p.rc.arm_duration < add64 s.request_duration_ (elapsed b s)
  · have h2 : ¬ add64 s.request_duration_ (elapsed b s) ≤ p.rc.arm_duration := by omega
    simp [h, h2]
  · have h2 : add64 s.request_duration_ (elapsed b s) ≤ p.rc.arm_duration := by omega
    simp [h, h2]

theorem step_beingArmed (p : Params) (b : Board) (s : RemoteControl)
    (hq : p.rc.read_interval_ms < elapsed b s)
    (hs : s.vehicle_state_ = VehicleStateType.BeingArmed) :
    ∃ s1, update p b s = Except.ok s1 ∧ s1.last_rec_read_ = b.millis % 2 ^ 64 ∧
      s1.goal_ = { axis3 := Axis3.zero, val4 := p.min_armed_throttle } ∧
      (getActionRequest p (readChannels p b) ≠ RcRequestType.NeutralRequest →
        s1.vehicle_state_ = VehicleStateType.BeingArmed ∧
        s1.request_duration_ = s.request_duration_) ∧
      (getActionRequest p (readChannels p b) = RcRequestType.NeutralRequest →
        p.rc.neutral_duration < add64 s.request_duration_ (elapsed b s) →
        s1.vehicle_state_ = VehicleStateType.Armed ∧ s1.request_duration_ = 0) ∧
      (getActionRequest p (readChannels p b) = RcRequestType.NeutralRequest →
        add64 s.request_duration_ (elapsed b s) ≤ p.rc.neutral_duration →
        s1.vehicle_state_ = VehicleStateType.BeingArmed ∧
        s1.request_duration_ = add64 s.request_duration_ (elapsed b s)) := by
  rw [update_of_qualifying p b s hq]
  unfold stateMachine
  simp only [updateGoalMode_vehicle_state, hs, updateGoalMode_request_duration]
  by_cases ha : getActionRequest p (readChannels p b) = RcRequestType.NeutralRequest
  · by_cases h : p.rc.neutral_duration < add64 s.request_duration_ (elapsed b s)
    · have h2 : ¬ add64 s.request_duration_ (elapsed b s) ≤ p.rc.neutral_duration := by omega
      simp [ha, h, h2]
    · have h2 : add64 s.request_duration_ (elapsed b s) ≤ p.rc.neutral_duration := by omega
      simp [ha, h, h2]
  · simp [ha]

theorem step_armed_other (p : Params) (b : Board) (s : RemoteControl)
    (hq : p.rc.read_interval_ms < elapsed b s)
    (hs : s.vehicle_state_ = VehicleStateType.Armed)
    (ha : getActionRequest p (readChannels p b) ≠ RcRequestType.DisarmRequest) :
    ∃ s1, update p b s = Except.ok s1 ∧ s1.last_rec_read_ = b.millis % 2 ^ 64 ∧
      s1.vehicle_state_ = VehicleStateType.Armed := by
  rw [update_of_qualifying p b s hq]
  unfold stateMachine
  simp only [updateGoalMode_vehicle_state, hs, ha, if_false]
  refine ⟨_, rfl, ?_, ?_⟩
  · rw [(updateGoal_fields _ _ _).2.2]
    simp
  · rw [(updateGoal_fields _ _ _).1]

theorem run_cons_ok (p : Params) (s s1 : RemoteControl) (b : Board) (bs : List Board)
    (h : update p b s = Except.ok s1) : run p s (b :: bs) = run p s1 bs := by
  simp [run, h]

theorem beingArmed_hold (p : Params) :
    ∀ (bs : List Board) (s : RemoteControl),
      s.vehicle_state_ = VehicleStateType.BeingArmed →
      Qualifying p s.last_rec_read_ bs →
      (∀ b ∈ bs, getActionRequest p (readChannels p b) ≠ RcRequestType.NeutralRequest) →
      ∃ s1, run p s bs = Except.ok s1 ∧
        s1.vehicle_state_ = VehicleStateType.BeingArmed ∧
        s1.request_duration_ = s.request_duration_ ∧
        s1.last_rec_read_ = lastTime s.last_rec_read_ bs := by
  intro bs
  induction bs with
  | nil => intro s hs _ _; exact ⟨s, rfl, hs, rfl, rfl⟩
  | cons b bs ih =>
    intro s hs hq hg
    obtain ⟨h1, h2, h3, h4⟩ := hq
    have hq1 : p.rc.read_interval_ms < elapsed b s := by rw [elapsed_eq_sub64]; exact h3
    obtain ⟨s1, hu, hl, _, hn, _, _⟩ := step_beingArmed p b s hq1 hs
    have hl1 : s1.last_rec_read_ = b.millis := by rw [hl]; exact Nat.mod_eq_of_lt h2
    obtain ⟨hv, hr⟩ := hn (hg b (List.mem_cons_self _ _))
    obtain ⟨s2, hrun, hv2, hr2, hl2⟩ := ih s1 hv (by rw [hl1]; exact h4)
      (fun b1 hb1 => hg b1 (List.mem_cons_of_mem _ hb1))
    refine ⟨s2, ?_, hv2, ?_, ?_⟩
    · rw [run_cons_ok p s s1 b bs hu]; exact hrun
    · rw [hr2, hr]
    · rw [hl2, hl1]; rfl

theorem armed_hold (p : Params) :
    ∀ (bs : List Board) (s : RemoteControl),
      s.vehicle_state_ = VehicleStateType.Armed →
      Qualifying p s.last_rec_read_ bs →
      (∀ b ∈ bs, getActionRequest p (readChannels p b) ≠ RcRequestType.DisarmRequest) →
      ∃ s1, run p s bs = Except.ok s1 ∧ s1.vehicle_state_ = VehicleStateType.Armed := by
  intro bs
  induction bs with
  | nil => intro s hs _ _; exact ⟨s, rfl, hs⟩
  | cons b bs ih =>
    intro s hs hq hg
    obtain ⟨h1, h2, h3, h4⟩ := hq
    have hq1 : p.rc.read_interval_ms < elapsed b s := by rw [elapsed_eq_sub64]; exact h3
    obtain ⟨s1, hu, hl, hv⟩ := step_armed_other p b s hq1 hs (hg b (List.mem_cons_self _ _))
    have hl1 : s1.last_rec_read_ = b.millis := by rw [hl]; exact Nat.mod_eq_of_lt h2
    obtain ⟨s2, hrun, hv2⟩ := ih s1 hv (by rw [hl1]; exact h4)
      (fun b1 hb1 => hg b1 (List.mem_cons_of_mem _ hb1))
    exact ⟨s2, by rw [run_cons_ok p s s1 b bs hu]; exact hrun, hv2⟩

theorem arm_phase (p : Params) :
    ∀ (bs : List Board) (s : RemoteControl),
      s.vehicle_state_ = VehicleStateType.Inactive →
      s.request_duration_ ≤ p.rc.arm_duration →
      s.request_duration_ ≤ s.last_rec_read_ →
      Qualifying p s.last_rec_read_ bs →
      (∀ b ∈ bs, getActionRequest p (readChannels p b) = RcRequestType.ArmRequest) →
      p.rc.arm_duration < s.request_duration_ + dtSum s.last_rec_read_ bs →
      ∃ s1, run p s bs = Except.ok s1 ∧
        s1.vehicle_state_ = VehicleStateType.BeingArmed ∧
        s1.request_duration_ = 0 ∧
        s1.last_rec_read_ = lastTime s.last_rec_read_ bs := by
  intro bs
  induction bs with
  | nil =>
    intro s _ hr _ _ _ hsum
    simp only [dtSum] at hsum
    omega
  | cons b bs ih =>
    intro s hs hr hrl hq hg hsum
    obtain ⟨h1, h2, h3, h4⟩ := hq
    have hq1 : p.rc.read_interval_ms < elapsed b s := by rw [elapsed_eq_sub64]; exact h3
    have hdt : elapsed b s = b.millis - s.last_rec_read_ := elapsed_of_le b s h1 h2
    have hsub : sub64 b.millis s.last_rec_read_ = b.millis - s.last_rec_read_ :=
      sub64_of_le _ _ h1 h2
    have hadd : add64 s.request_duration_ (elapsed b s) =
        s.request_duration_ + (b.millis - s.last_rec_read_) := by
      rw [hdt]; exact add64_of_lt _ _ (by omega)
    obtain ⟨s1, hu, hl, hgt, hle⟩ :=
      step_inactive_arm p b s hq1 hs (hg b (List.mem_cons_self _ _))
    have hl1 : s1.last_rec_read_ = b.millis := by rw [hl]; exact Nat.mod_eq_of_lt h2
    rw [run_cons_ok p s s1 b bs hu]
    simp only [dtSum, hsub] at hsum
    simp only [lastTime]
    by_cases hc : p.rc.arm_duration < add64 s.request_duration_ (elapsed b s)
    · obtain ⟨hv, hr1⟩ := hgt hc
      obtain ⟨s2, hrun, hv2, hr2, hl2⟩ := beingArmed_hold p bs s1 hv (by rw [hl1]; exact h4)
        (fun b1 hb1 => by rw [hg b1 (List.mem_cons_of_mem _ hb1)]; simp)
      exact ⟨s2, hrun, hv2, by rw [hr2, hr1], by rw [hl2, hl1]⟩
    · obtain ⟨hv, hr1⟩ := hle (by omega)
      obtain ⟨s2, hrun, hv2, hr2, hl2⟩ := ih s1 hv (by omega) (by omega)
        (by rw [hl1]; exact h4) (fun b1 hb1 => hg b1 (List.mem_cons_of_mem _ hb1))
        (by rw [hl1]; omega)
      exact ⟨s2, hrun, hv2, hr2, by rw [hl2, hl1]⟩

theorem neutral_phase (p : Params) :
    ∀ (bs : List Board) (s : RemoteControl),
      s.vehicle_state_ = VehicleStateType.BeingArmed →
      s.request_duration_ ≤ p.rc.neutral_duration →
      s.request_duration_ ≤ s.last_rec_read_ →
      Qualifying p s.last_rec_read_ bs →
      (∀ b ∈ bs, getActionRequest p (readChannels p b) = RcRequestType.NeutralRequest) →
      p.rc.neutral_duration < s.request_duration_ + dtSum s.last_rec_read_ bs →
      ∃ s1, run p s bs = Except.ok s1 ∧ s1.vehicle_state_ = VehicleStateType.Armed := by
  intro bs
  induction bs with
  | nil =>
    intro s _ hr _ _ _ hsum
    simp only [dtSum] at hsum
    omega
  | cons b bs ih =>
    intro s hs hr hrl hq hg hsum
    obtain ⟨h1, h2, h3, h4⟩ := hq
    have hq1 : p.rc.read_interval_ms < elapsed b s := by rw [elapsed_eq_sub64]; exact h3
    have hdt : elapsed b s = b.millis - s.last_rec_read_ := elapsed_of_le b s h1 h2
    have hsub : sub64 b.millis s.last_rec_read_ = b.millis - s.last_rec_read_ :=
      sub64_of_le _ _ h1 h2
    have hadd : add64 s.request_duration_ (elapsed b s) =
        s.request_duration_ + (b.millis - s.last_rec_read_) := by
      rw [hdt]; exact add64_of_lt _ _ (by omega)
    obtain ⟨s1, hu, hl, _, _, hgt, hle⟩ := step_beingArmed p b s hq1 hs
    have hl1 : s1.last_rec_read_ = b.millis := by rw [hl]; exact Nat.mod_eq_of_lt h2
    have hgb := hg b (List.mem_cons_self _ _)
    rw [run_cons_ok p s s1 b bs hu]
    simp only [dtSum, hsub] at hsum
    by_cases hc : p.rc.neutral_duration < add64 s.request_duration_ (elapsed b s)
    · obtain ⟨hv, _⟩ := hgt hgb hc
      exact armed_hold p bs s1 hv (by rw [hl1]; exact h4)
        (fun b1 hb1 => by rw [hg b1 (List.mem_cons_of_mem _ hb1)]; simp)
    · obtain ⟨hv, hr1⟩ := hle hgb (by omega)
      exact ih s1 hv (by omega) (by omega)
        (by rw [hl1]; exact h4) (fun b1 hb1 => hg b1 (List.mem_cons_of_mem _ hb1))
        (by rw [hl1]; omega)

theorem run_append (p : Params) :
    ∀ (l1 l2 : List Board) (s : RemoteControl),
      run p s (l1 ++ l2) =
        match run p s l1 with
        | Except.ok s1 => run p s1 l2
        | Except.error e => Except.error e := by
  intro l1
  induction l1 with
  | nil => intro l2 s; rfl
  | cons b bs ih =>
    intro l2 s
    simp only [List.cons_append, run]
    cases update p b s with
    | ok s1 => exact ih l2 s1
    | error e => rfl

theorem qualifying_append (p : Params) :
    ∀ (l1 l2 : List Board) (t : Nat),
      Qualifying p t (l1 ++ l2) → Qualifying p t l1 ∧ Qualifying p (lastTime t l1) l2 := by
  intro l1
  induction l1 with
  | nil => intro l2 t h; exact ⟨trivial, h⟩
  | cons b bs ih =>
    intro l2 t h
    obtain ⟨h1, h2, h3, h4⟩ := h
    obtain ⟨h5, h6⟩ := ih l2 b.millis h4
    exact ⟨⟨h1, h2, h3, h5⟩, h6⟩

theorem run_last_rec_read (p : Params) :
    ∀ (bs : List Board) (s s1 : RemoteControl),
      Qualifying p s.last_rec_read_ bs → run p s bs = Except.ok s1 →
      s1.last_rec_read_ = lastTime s.last_rec_read_ bs := by
  intro bs
  induction bs with
  | nil =>
    intro s s1 _ h
    simp only [run, Except.ok.injEq] at h
    rw [← h]; rfl
  | cons b bs ih =>
    intro s s1 hq h
    obtain ⟨_, h2, h3, h4⟩ := hq
    have hq1 : p.rc.read_interval_ms < elapsed b s := by rw [elapsed_eq_sub64]; exact h3
    have hl := stateOf_update_last_rec_read p b s hq1
    simp only [run] at h
    cases hu : update p b s with
    | error e => rw [hu] at h; cases h
    | ok s2 =>
      rw [hu] at h hl
      simp only [stateOf] at hl
      have hl1 : s2.last_rec_read_ = b.millis := by rw [hl]; exact Nat.mod_eq_of_lt h2
      have := ih s2 s1 (by rw [hl1]; exact h4) h
      rw [this, hl1]; rfl

/-- C5: start in `Inactive` with accumulator 0 and a clock that never runs backwards; feed
qualifying ticks classified `ArmRequest` whose `dt` values sum to more than `arm_duration`
and then qualifying ticks classified `NeutralRequest` whose `dt` values sum to more than
`neutral_duration`. Every `update()` returns, the final state is `Armed`, and after each
tick that ran in state `BeingArmed` the goal throttle is `min_armed_throttle` and the
three angular goal axes are 0, whatever the sticks read. -/
theorem arm_then_neutral_reaches_armed (p : Params) (s : RemoteControl)
    (armTicks neutralTicks : List Board)
    (hs : s.vehicle_state_ = VehicleStateType.Inactive)
    (hr : s.request_duration_ = 0)
    (hq : Qualifying p s.last_rec_read_ (armTicks ++ neutralTicks))
    (harm : ∀ b ∈ armTicks,
      getActionRequest p (readChannels p b) = RcRequestType.ArmRequest)
    (hneutral : ∀ b ∈ neutralTicks,
      getActionRequest p (readChannels p b) = RcRequestType.NeutralRequest)
    (hsumArm : p.rc.arm_duration < dtSum s.last_rec_read_ armTicks)
    (hsumNeutral :
      p.rc.neutral_duration < dtSum (lastTime s.last_rec_read_ armTicks) neutralTicks) :
    returns (run p s (armTicks ++ neutralTicks)) = true ∧
    (stateOf (run p s (armTicks ++ neutralTicks))).vehicle_state_ = VehicleStateType.Armed ∧
    ∀ (pre : List Board) (b : Board) (post : List Board),
      armTicks ++ neutralTicks = pre ++ b :: post →
      (stateOf (run p s pre)).vehicle_state_ = VehicleStateType.BeingArmed →
      (stateOf (run p s (pre ++ [b]))).goal_.throttle = p.min_armed_throttle ∧
      (stateOf (run p s (pre ++ [b]))).goal_.axis3 = Axis3.zero := by
  obtain ⟨hqa, hqn⟩ := qualifying_append p armTicks neutralTicks _ hq
  obtain ⟨s1, hrun1, hv1, hr1, hl1⟩ := arm_phase p armTicks s hs (by omega) (by omega) hqa harm
    (by omega)
  obtain ⟨s2, hrun2, hv2⟩ := neutral_phase p neutralTicks s1 hv1 (by omega) (by omega)
    (by rw [hl1]; exact hqn) hneutral (by rw [hl1]; omega)
  have hall : run p s (armTicks ++ neutralTicks) = Except.ok s2 := by
    rw [run_append, hrun1]; exact hrun2
  refine ⟨by rw [hall]; rfl, by rw [hall]; exact hv2, ?_⟩
  intro pre b post hsplit hpre
  rw [hsplit] at hall hq
  obtain ⟨hqp, hqb⟩ := qualifying_append p pre (b :: post) _ hq
  rw [run_append] at hall
  cases hp : run p s pre with
  | error e => rw [hp] at hall; cases hall
  | ok s3 =>
    rw [hp] at hpre
    simp only [stateOf] at hpre
    have hl3 := run_last_rec_read p pre s s3 hqp hp
    obtain ⟨_, _, hq3, _⟩ := hqb
    have hq4 : p.rc.read_interval_ms < elapsed b s3 := by
      rw [elapsed_eq_sub64, hl3]; exact hq3
    obtain ⟨s4, hu, _, hg, _⟩ := step_beingArmed p b s3 hq4 hpre
    have h5 : run p s (pre ++ [b]) = Except.ok s4 := by
      rw [run_append, hp]
      simp [run, hu]
    rw [h5]
    simp only [stateOf, hg, Axis4.throttle, and_self]

/-- Witness for `arm_then_neutral_reaches_armed`: after `reset()`, the arming gesture
read at 60 ms and 120 ms and centred sticks read at 180 ms and 300 ms end in `Armed`. -/
theorem arm_then_neutral_reaches_armed_witness :
    (reset exampleParams blank).vehicle_state_ = VehicleStateType.Inactive ∧
    (reset exampleParams blank).request_duration_ = 0 ∧
    exampleParams.rc.arm_duration <
      dtSum (reset exampleParams blank).last_rec_read_ [armSticks 60, armSticks 120] ∧
    exampleParams.rc.neutral_duration <
      dtSum (lastTime (reset exampleParams blank).last_rec_read_
        [armSticks 60, armSticks 120]) [neutralSticks 180, neutralSticks 300] ∧
    (stateOf (run exampleParams (reset exampleParams blank)
      ([armSticks 60, armSticks 120] ++ [neutralSticks 180, neutralSticks 300]))).vehicle_state_
      = VehicleStateType.Armed :=
  have hsumArm : exampleParams.rc.arm_duration <
      dtSum (reset exampleParams blank).last_rec_read_ [armSticks 60, armSticks 120] := by
    simp [exampleParams, dtSum, reset, armSticks, sticks, sub64]
  have hsumNeutral : exampleParams.rc.neutral_duration <
      dtSum (lastTime (reset exampleParams blank).last_rec_read_
        [armSticks 60, armSticks 120]) [neutralSticks 180, neutralSticks 300] := by
    simp [exampleParams, dtSum, lastTime, reset, armSticks, neutralSticks, sticks, sub64]
  ⟨rfl, rfl, hsumArm, hsumNeutral,
    (arm_then_neutral_reaches_armed exampleParams (reset exampleParams blank)
      [armSticks 60, armSticks 120] [neutralSticks 180, neutralSticks 300] rfl rfl
      (by simp [Qualifying, exampleParams, reset, armSticks, neutralSticks, sticks, sub64])
      (by
        intro b hb
        simp only [List.mem_cons, List.mem_singleton, List.not_mem_nil, or_false] at hb
        rcases hb with rfl | rfl <;> exact armSticks_gesture _)
      (by
        intro b hb
        simp only [List.mem_cons, List.mem_singleton, List.not_mem_nil, or_false] at hb
        rcases hb with rfl | rfl <;> exact neutralSticks_gesture _)
      hsumArm hsumNeutral).2.1⟩

/-! ### The throttle floor while armed -/

theorem updateGoal_throttle_ge (p : Params) (channels : Axis4 TReal) (s : RemoteControl) :
    p.rc.min_angling_throttle ≤ (updateGoal p channels s).goal_.val4 := by
  unfold updateGoal
  simp only [Axis4.throttle]
  split_ifs with h1 h2 h2
  · exact le_refl _
  · exact le_refl _
  · exact le_of_lt (not_le.mp h1)
  · exact le_of_lt (not_le.mp h1)

theorem throttle_floor_step (p : Params) (b : Board) (s : RemoteControl)
    (hm : p.rc.min_angling_throttle ≤ p.min_armed_throttle)
    (hinv : s.vehicle_state_ = VehicleStateType.Armed →
      p.rc.min_angling_throttle ≤ s.goal_.throttle) :
    (stateOf (update p b s)).vehicle_state_ = VehicleStateType.Armed →
      p.rc.min_angling_throttle ≤ (stateOf (update p b s)).goal_.throttle := by
  by_cases hq : p.rc.read_interval_ms < elapsed b s
  · rw [update_of_qualifying p b s hq]
    unfold stateMachine
    cases hv : s.vehicle_state_ <;>
      simp only [updateGoalMode_vehicle_state, hv, updateGoalMode_request_duration,
        updateGoalMode_goal]
    · simp [stateOf, hv]
    · split_ifs <;> simp [stateOf, hv]
    · split_ifs <;> simp [stateOf, hv, Axis4.throttle, hm]
    · split_ifs
      · simp [stateOf]
      · intro _
        simpa [stateOf] using hinv hv
      · intro _
        simpa [stateOf, Axis4.throttle] using updateGoal_throttle_ge p _ _
    · simp [stateOf, hv]
    · simp [stateOf]
    · simp [stateOf]
  · rw [update_of_not_qualifying p b s (by omega)]
    exact hinv

theorem throttle_floor_afterTicks (p : Params)
    (hm : p.rc.min_angling_throttle ≤ p.min_armed_throttle) :
    ∀ (bs : List Board) (s : RemoteControl),
      (s.vehicle_state_ = VehicleStateType.Armed →
        p.rc.min_angling_throttle ≤ s.goal_.throttle) →
      (afterTicks p s bs).vehicle_state_ = VehicleStateType.Armed →
      p.rc.min_angling_throttle ≤ (afterTicks p s bs).goal_.throttle := by
  intro bs
  induction bs with
  | nil => intro s h; exact h
  | cons b bs ih =>
    intro s h
    exact ih (stateOf (update p b s)) (throttle_floor_step p b s hm h)

/-- C7, as stated, fails: with `min_armed_throttle` = 0 below `min_angling_throttle` =
1/15 and default state `Inactive`, `reset()` followed by the arming gesture at 200 ms and
centred sticks at 400 ms ends in `Armed` with goal throttle 0, below
`min_angling_throttle`. -/
theorem armed_below_angling_throttle :
    lowArmedParams.default_vehicle_state = VehicleStateType.Inactive ∧
    (afterTicks lowArmedParams (reset lowArmedParams blank)
      [armSticks 200, neutralSticks 400]).vehicle_state_ = VehicleStateType.Armed ∧
    (afterTicks lowArmedParams (reset lowArmedParams blank)
      [armSticks 200, neutralSticks 400]).goal_.throttle = 0 ∧
    (afterTicks lowArmedParams (reset lowArmedParams blank)
      [armSticks 200, neutralSticks 400]).goal_.throttle <
      lowArmedParams.rc.min_angling_throttle := by
  have ha : getActionRequest lowArmedParams (readChannels lowArmedParams (armSticks 200)) =
      RcRequestType.ArmRequest := armSticks_gesture 200
  have hn : getActionRequest lowArmedParams (readChannels lowArmedParams (neutralSticks 400)) =
      RcRequestType.NeutralRequest := neutralSticks_gesture 400
  have h1 : update lowArmedParams (armSticks 200) (reset lowArmedParams blank) = Except.ok
      { goal_ := Axis4.zero, goal_mode_ := GoalMode.getStandardAngleMode, last_rec_read_ := 200,
        angle_mode_ := 0, last_angle_mode_ := 0, request_duration_ := 0,
        vehicle_state_ := VehicleStateType.BeingArmed } := by
    rw [update_of_qualifying _ _ _
      (by simp [lowArmedParams, exampleParams, elapsed, armSticks, sticks, reset, sub64]), ha]
    norm_num [stateMachine, updateGoalMode, lowArmedParams, exampleParams, reset, blank,
      elapsed, sub64, add64, armSticks, sticks, TReal_min]
  have h2 : update lowArmedParams (neutralSticks 400)
      { goal_ := Axis4.zero, goal_mode_ := GoalMode.getStandardAngleMode, last_rec_read_ := 200,
        angle_mode_ := 0, last_angle_mode_ := 0, request_duration_ := 0,
        vehicle_state_ := VehicleStateType.BeingArmed } = Except.ok
      { goal_ := Axis4.zero, goal_mode_ := GoalMode.getStandardAngleMode, last_rec_read_ := 400,
        angle_mode_ := 0, last_angle_mode_ := 0, request_duration_ := 0,
        vehicle_state_ := VehicleStateType.Armed } := by
    rw [update_of_qualifying _ _ _
      (by simp [lowArmedParams, exampleParams, elapsed, neutralSticks, sticks, sub64]), hn]
    norm_num [stateMachine, updateGoalMode, lowArmedParams, exampleParams, elapsed, sub64,
      add64, neutralSticks, sticks, Axis4.zero, Axis4.mk4, Axis3.zero]
  have h3 : afterTicks lowArmedParams (reset lowArmedParams blank)
      [armSticks 200, neutralSticks 400] =
      { goal_ := Axis4.zero, goal_mode_ := GoalMode.getStandardAngleMode, last_rec_read_ := 400,
        angle_mode_ := 0, last_angle_mode_ := 0, request_duration_ := 0,
        vehicle_state_ := VehicleStateType.Armed } := by
    simp only [afterTicks, List.foldl, h1, h2, stateOf]
  rw [h3]
  refine ⟨rfl, rfl, rfl, ?_⟩
  norm_num [Axis4.throttle, Axis4.zero, Axis4.mk4, lowArmedParams, exampleParams]

/-- C7, amended: for every parameter block with `min_angling_throttle` ≤
`min_armed_throttle` and default lifecycle state `Inactive`, in every state reached from
`reset()` by any sequence of `update()` calls, a lifecycle state `Armed` comes with a goal
throttle that is not below `min_angling_throttle`, whatever the raw throttle reads. -/
theorem armed_throttle_floor (p : Params) (s0 : RemoteControl) (bs : List Board)
    (hd : p.default_vehicle_state = VehicleStateType.Inactive)
    (hm : p.rc.min_angling_throttle ≤ p.min_armed_throttle)
    (ha : (afterTicks p (reset p s0) bs).vehicle_state_ = VehicleStateType.Armed) :
    p.rc.min_angling_throttle ≤ (afterTicks p (reset p s0) bs).goal_.throttle := by
  apply throttle_floor_afterTicks p hm bs (reset p s0) _ ha
  intro h
  simp [reset, hd] at h

/-- The object of `exampleParams` after `reset()`, the arming gesture at 200 ms and
centred sticks at 400 ms: armed, with the goal throttle at `min_armed_throttle`. -/
theorem example_armed :
    afterTicks exampleParams (reset exampleParams blank) [armSticks 200, neutralSticks 400] =
      { goal_ := { axis3 := Axis3.zero, val4 := 1 / 10 },
        goal_mode_ := GoalMode.getStandardAngleMode, last_rec_read_ := 400,
        angle_mode_ := 0, last_angle_mode_ := 0, request_duration_ := 0,
        vehicle_state_ := VehicleStateType.Armed } := by
  have h1 : update exampleParams (armSticks 200) (reset exampleParams blank) = Except.ok
      { goal_ := Axis4.zero, goal_mode_ := GoalMode.getStandardAngleMode, last_rec_read_ := 200,
        angle_mode_ := 0, last_angle_mode_ := 0, request_duration_ := 0,
        vehicle_state_ := VehicleStateType.BeingArmed } := by
    rw [update_of_qualifying _ _ _
      (by simp [exampleParams, elapsed, armSticks, sticks, reset, sub64]), armSticks_gesture]
    norm_num [stateMachine, updateGoalMode, exampleParams, reset, blank,
      elapsed, sub64, add64, armSticks, sticks, TReal_min]
  have h2 : update exampleParams (neutralSticks 400)
      { goal_ := Axis4.zero, goal_mode_ := GoalMode.getStandardAngleMode, last_rec_read_ := 200,
        angle_mode_ := 0, last_angle_mode_ := 0, request_duration_ := 0,
        vehicle_state_ := VehicleStateType.BeingArmed } = Except.ok
      { goal_ := { axis3 := Axis3.zero, val4 := 1 / 10 },
        goal_mode_ := GoalMode.getStandardAngleMode, last_rec_read_ := 400,
        angle_mode_ := 0, last_angle_mode_ := 0, request_duration_ := 0,
        vehicle_state_ := VehicleStateType.Armed } := by
    rw [update_of_qualifying _ _ _
      (by simp [exampleParams, elapsed, neutralSticks, sticks, sub64]), neutralSticks_gesture]
    norm_num [stateMachine, updateGoalMode, exampleParams, elapsed, sub64,
      add64, neutralSticks, sticks]
  simp only [afterTicks, List.foldl, h1, h2, stateOf]

/-- Witness for `armed_throttle_floor`: the default-like parameter block, armed by the
arming gesture at 200 ms and centred sticks at 400 ms. -/
theorem armed_throttle_floor_witness :
    exampleParams.default_vehicle_state = VehicleStateType.Inactive ∧
    exampleParams.rc.min_angling_throttle ≤ exampleParams.min_armed_throttle ∧
    (afterTicks exampleParams (reset exampleParams blank)
      [armSticks 200, neutralSticks 400]).vehicle_state_ = VehicleStateType.Armed ∧
    exampleParams.rc.min_angling_throttle ≤
      (afterTicks exampleParams (reset exampleParams blank)
        [armSticks 200, neutralSticks 400]).goal_.throttle :=
  have hm : exampleParams.rc.min_angling_throttle ≤ exampleParams.min_armed_throttle := by
    norm_num [exampleParams]
  have ha : (afterTicks exampleParams (reset exampleParams blank)
      [armSticks 200, neutralSticks 400]).vehicle_state_ = VehicleStateType.Armed := by
    rw [example_armed]
  ⟨rfl, hm, ha,
    armed_throttle_floor exampleParams blank [armSticks 200, neutralSticks 400] rfl hm ha⟩

/-! ### Disarming -/

/-- C8, as stated, fails: after `reset()`, arming (gesture at 200 ms, centred sticks at
400 ms) and the disarming gesture at 600 ms (sum 200 > `disarm_duration` = 100) give
`BeingDisarmed`; the next tick gives `Disarmed` with the angular goal axes at 0 but the
goal throttle still at `min_armed_throttle` = 1/10, not 0. -/
theorem throttle_kept_while_being_disarmed :
    (afterTicks exampleParams (reset exampleParams blank)
      [armSticks 200, neutralSticks 400]).vehicle_state_ = VehicleStateType.Armed ∧
    (afterTicks exampleParams (reset exampleParams blank)
      [armSticks 200, neutralSticks 400, disarmSticks 600]).vehicle_state_ =
        VehicleStateType.BeingDisarmed ∧
    (afterTicks exampleParams (reset exampleParams blank)
      [armSticks 200, neutralSticks 400, disarmSticks 600, neutralSticks 800]).vehicle_state_ =
        VehicleStateType.Disarmed ∧
    (afterTicks exampleParams (reset exampleParams blank)
      [armSticks 200, neutralSticks 400, disarmSticks 600, neutralSticks 800]).goal_.throttle =
        1 / 10 ∧
    (afterTicks exampleParams (reset exampleParams blank)
      [armSticks 200, neutralSticks 400, disarmSticks 600, neutralSticks 800]).goal_.throttle ≠
        0 := by
  have h0 := example_armed
  simp only [afterTicks, List.foldl] at h0 ⊢
  rw [h0]
  have h3 : update exampleParams (disarmSticks 600)
      { goal_ := { axis3 := Axis3.zero, val4 := 1 / 10 },
        goal_mode_ := GoalMode.getStandardAngleMode, last_rec_read_ := 400,
        angle_mode_ := 0, last_angle_mode_ := 0, request_duration_ := 0,
        vehicle_state_ := VehicleStateType.Armed } = Except.ok
      { goal_ := { axis3 := Axis3.zero, val4 := 1 / 10 },
        goal_mode_ := GoalMode.getStandardAngleMode, last_rec_read_ := 600,
        angle_mode_ := 0, last_angle_mode_ := 0, request_duration_ := 0,
        vehicle_state_ := VehicleStateType.BeingDisarmed } := by
    rw [update_of_qualifying _ _ _
      (by simp [exampleParams, elapsed, disarmSticks, sticks, sub64]), disarmSticks_gesture]
    norm_num [stateMachine, updateGoalMode, exampleParams, elapsed, sub64,
      add64, disarmSticks, sticks]
  have h4 : update exampleParams (neutralSticks 800)
      { goal_ := { axis3 := Axis3.zero, val4 := 1 / 10 },
        goal_mode_ := GoalMode.getStandardAngleMode, last_rec_read_ := 600,
        angle_mode_ := 0, last_angle_mode_ := 0, request_duration_ := 0,
        vehicle_state_ := VehicleStateType.BeingDisarmed } = Except.ok
      { goal_ := { axis3 := Axis3.zero, val4 := 1 / 10 },
        goal_mode_ := GoalMode.getStandardAngleMode, last_rec_read_ := 800,
        angle_mode_ := 0, last_angle_mode_ := 0, request_duration_ := 0,
        vehicle_state_ := VehicleStateType.Disarmed } := by
    rw [update_of_qualifying _ _ _
      (by simp [exampleParams, elapsed, neutralSticks, sticks, sub64]), neutralSticks_gesture]
    norm_num [stateMachine, updateGoalMode, exampleParams, elapsed, sub64,
      add64, neutralSticks, sticks]
  rw [h3]
  simp only [stateOf]
  rw [h4]
  simp only [stateOf, Axis4.throttle]
  norm_num

/-- C8, amended: from `Armed`, a qualifying tick classified `DisarmRequest` with the
(64-bit) sum `request_duration_ + dt` above `disarm_duration` moves to `BeingDisarmed`;
then, whatever the sticks read, the next two qualifying ticks return and move to
`Disarmed` and to `Inactive`. After the first of them the three angular goal axes and the
accumulator are 0 and the goal throttle is what it was before; after the second the goal
throttle, the three angular goal axes and the accumulator are all 0. -/
theorem disarm_sequence (p : Params) (s : RemoteControl) (b1 b2 b3 : Board)
    (hs : s.vehicle_state_ = VehicleStateType.Armed)
    (hq1 : p.rc.read_interval_ms < elapsed b1 s)
    (hg : getActionRequest p (readChannels p b1) = RcRequestType.DisarmRequest)
    (hd : p.rc.disarm_duration < add64 s.request_duration_ (elapsed b1 s))
    (hq2 : p.rc.read_interval_ms < elapsed b2 (afterTicks p s [b1]))
    (hq3 : p.rc.read_interval_ms < elapsed b3 (afterTicks p s [b1, b2])) :
    returns (run p s [b1, b2, b3]) = true ∧
    (afterTicks p s [b1]).vehicle_state_ = VehicleStateType.BeingDisarmed ∧
    (afterTicks p s [b1, b2]).vehicle_state_ = VehicleStateType.Disarmed ∧
    (afterTicks p s [b1, b2]).goal_.axis3 = Axis3.zero ∧
    (afterTicks p s [b1, b2]).goal_.throttle = s.goal_.throttle ∧
    (afterTicks p s [b1, b2]).request_duration_ = 0 ∧
    (afterTicks p s [b1, b2, b3]).vehicle_state_ = VehicleStateType.Inactive ∧
    (afterTicks p s [b1, b2, b3]).goal_.throttle = 0 ∧
    (afterTicks p s [b1, b2, b3]).goal_.axis3 = Axis3.zero ∧
    (afterTicks p s [b1, b2, b3]).request_duration_ = 0 := by
  simp only [afterTicks, List.foldl] at hq2 hq3 ⊢
  have h1 : ∃ s1, update p b1 s = Except.ok s1 ∧
      s1.vehicle_state_ = VehicleStateType.BeingDisarmed ∧ s1.goal_ = s.goal_ := by
    rw [update_of_qualifying p b1 s hq1]
    unfold stateMachine
    simp [hs, hg, hd]
  obtain ⟨s1, hu1, hv1, hg1⟩ := h1
  rw [hu1] at hq2 hq3 ⊢
  simp only [stateOf] at hq2 hq3 ⊢
  have h2 : ∃ s2, update p b2 s1 = Except.ok s2 ∧
      s2.vehicle_state_ = VehicleStateType.Disarmed ∧ s2.goal_.axis3 = Axis3.zero ∧
      s2.goal_.val4 = s1.goal_.val4 ∧ s2.request_duration_ = 0 := by
    rw [update_of_qualifying p b2 s1 hq2]
    unfold stateMachine
    simp [hv1]
  obtain ⟨s2, hu2, hv2, ha2, ht2, hr2⟩ := h2
  rw [hu2] at hq3 ⊢
  simp only [stateOf] at hq3 ⊢
  have h3 : ∃ s3, update p b3 s2 = Except.ok s3 ∧
      s3.vehicle_state_ = VehicleStateType.Inactive ∧ s3.goal_.axis3 = Axis3.zero ∧
      s3.goal_.val4 = 0 ∧ s3.request_duration_ = 0 := by
    rw [update_of_qualifying p b3 s2 hq3]
    unfold stateMachine
    simp [hv2]
  obtain ⟨s3, hu3, hv3, ha3, ht3, hr3⟩ := h3
  rw [hu3]
  simp only [stateOf, Axis4.throttle]
  refine ⟨?_, hv1, hv2, ha2, ?_, hr2, hv3, ht3, ha3, hr3⟩
  · simp [run, hu1, hu2, hu3, returns]
  · rw [ht2, hg1]

/-- Witness for `disarm_sequence`: an armed object with goal throttle 1/2 reads the
disarming gesture at 600 ms, then raised sticks at 800 ms and at 1000 ms. -/
theorem disarm_sequence_witness :
    armedExample.vehicle_state_ = VehicleStateType.Armed ∧
    exampleParams.rc.read_interval_ms < elapsed (disarmSticks 600) armedExample ∧
    getActionRequest exampleParams (readChannels exampleParams (disarmSticks 600)) =
      RcRequestType.DisarmRequest ∧
    exampleParams.rc.disarm_duration <
      add64 armedExample.request_duration_ (elapsed (disarmSticks 600) armedExample) ∧
    (afterTicks exampleParams armedExample
      [disarmSticks 600, sticks 800 1 1 1 1 0]).goal_.throttle = armedExample.goal_.throttle ∧
    (afterTicks exampleParams armedExample
      [disarmSticks 600, sticks 800 1 1 1 1 0, sticks 1000 1 1 1 1 0]).vehicle_state_ =
      VehicleStateType.Inactive :=
  have hq1 : exampleParams.rc.read_interval_ms < elapsed (disarmSticks 600) armedExample := by
    simp [exampleParams, elapsed, disarmSticks, sticks, armedExample, sub64]
  have hd : exampleParams.rc.disarm_duration <
      add64 armedExample.request_duration_ (elapsed (disarmSticks 600) armedExample) := by
    simp [exampleParams, elapsed, disarmSticks, sticks, armedExample, sub64, add64]
  have hq2 : exampleParams.rc.read_interval_ms <
      elapsed (sticks 800 1 1 1 1 0) (afterTicks exampleParams armedExample [disarmSticks 600]) := by
    simp only [afterTicks, List.foldl, elapsed]
    rw [stateOf_update_last_rec_read _ _ _ hq1]
    simp [exampleParams, disarmSticks, sticks, sub64]
  have hq3 : exampleParams.rc.read_interval_ms <
      elapsed (sticks 1000 1 1 1 1 0)
        (afterTicks exampleParams armedExample [disarmSticks 600, sticks 800 1 1 1 1 0]) := by
    have hq2a : exampleParams.rc.read_interval_ms <
        elapsed (sticks 800 1 1 1 1 0)
          (stateOf (update exampleParams (disarmSticks 600) armedExample)) := hq2
    simp only [afterTicks, List.foldl, elapsed]
    rw [stateOf_update_last_rec_read _ _ _ hq2a]
    simp [exampleParams, sticks, sub64]
  have h := disarm_sequence exampleParams armedExample (disarmSticks 600)
    (sticks 800 1 1 1 1 0) (sticks 1000 1 1 1 1 0) rfl hq1 (disarmSticks_gesture 600) hd hq2 hq3
  ⟨rfl, hq1, disarmSticks_gesture 600, hd, h.2.2.2.2.1, h.2.2.2.2.2.2.1⟩

/-! ### The goal mode and `reset()` -/

/-- C9 at a concrete input: with the all-rate preset as default goal mode and the split
point at 0.3, `reset()` followed by a qualifying tick whose selector reads
`std::numeric_limits<float>::min()` (the value `reset()` stores as last observed reading)
leaves the goal mode at the all-rate preset, although the reading is below the split
point, which is the test `updateGoal` applies to pick the angle-level limit table. -/
theorem goal_mode_stale_at_sentinel :
    (sticks 50 0 0 0 0 TReal_min).readChannel allRateDefaultParams.rc.rate_level_mode_channel
      < allRateDefaultParams.rc.max_angle_level_switch ∧
    allRateDefaultParams.rc.read_interval_ms <
      elapsed (sticks 50 0 0 0 0 TReal_min) (reset allRateDefaultParams blank) ∧
    returns (update allRateDefaultParams (sticks 50 0 0 0 0 TReal_min)
      (reset allRateDefaultParams blank)) = true ∧
    (stateOf (update allRateDefaultParams (sticks 50 0 0 0 0 TReal_min)
      (reset allRateDefaultParams blank))).angle_mode_ <
      allRateDefaultParams.rc.max_angle_level_switch ∧
    (stateOf (update allRateDefaultParams (sticks 50 0 0 0 0 TReal_min)
      (reset allRateDefaultParams blank))).goal_mode_ = GoalMode.getAllRateMode ∧
    (stateOf (update allRateDefaultParams (sticks 50 0 0 0 0 TReal_min)
      (reset allRateDefaultParams blank))).goal_mode_ ≠ GoalMode.getStandardAngleMode := by
  have hq : allRateDefaultParams.rc.read_interval_ms <
      elapsed (sticks 50 0 0 0 0 TReal_min) (reset allRateDefaultParams blank) := by
    simp [allRateDefaultParams, exampleParams, elapsed, sticks, reset, sub64]
  have hn : getActionRequest allRateDefaultParams
      (readChannels allRateDefaultParams (sticks 50 0 0 0 0 TReal_min)) =
      RcRequestType.NeutralRequest := by
    decide!
  have hlt : (sticks 50 0 0 0 0 TReal_min).readChannel
      allRateDefaultParams.rc.rate_level_mode_channel
      < allRateDefaultParams.rc.max_angle_level_switch := by
    norm_num [sticks, allRateDefaultParams, exampleParams, TReal_min]
  have hu : update allRateDefaultParams (sticks 50 0 0 0 0 TReal_min)
      (reset allRateDefaultParams blank) = Except.ok
      { goal_ := Axis4.zero, goal_mode_ := GoalMode.getAllRateMode, last_rec_read_ := 50,
        angle_mode_ := TReal_min, last_angle_mode_ := TReal_min, request_duration_ := 0,
        vehicle_state_ := VehicleStateType.Inactive } := by
    rw [update_of_qualifying _ _ _ hq, hn]
    simp [stateMachine, updateGoalMode, allRateDefaultParams, exampleParams, reset, blank,
      sticks]
  refine ⟨hlt, hq, ?_, ?_, ?_, ?_⟩
  · rw [hu]; rfl
  · rw [hu]; exact hlt
  · rw [hu]; rfl
  · rw [hu]
    simp [stateOf, GoalMode.getAllRateMode, GoalMode.getStandardAngleMode, GoalMode.default,
      Axis4.mk4]

/-- C10, as stated, fails: with `Armed` as the default lifecycle state of the parameter
block, the lifecycle state after `reset()` is `Armed`, not `Inactive`. -/
theorem reset_state_not_inactive :
    (reset armedDefaultParams blank).vehicle_state_ = VehicleStateType.Armed ∧
    (reset armedDefaultParams blank).vehicle_state_ ≠ VehicleStateType.Inactive := by
  constructor
  · rfl
  · simp [reset, armedDefaultParams]

/-- C10, amended: after `reset()` from any prior state and for every parameter block, the
lifecycle state is the block's `default_vehicle_state`, the goal vector is all zeros, the
accumulator `request_duration_` is 0 and the last-read time is 0; and `reset()` followed
by `reset()` equals a single `reset()`. -/
theorem reset_fields (p : Params) (s : RemoteControl) :
    (reset p s).vehicle_state_ = p.default_vehicle_state ∧
    (reset p s).goal_ = Axis4.mk4 0 0 0 0 ∧
    (reset p s).request_duration_ = 0 ∧
    (reset p s).last_rec_read_ = 0 ∧
    reset p (reset p s) = reset p s :=
  ⟨rfl, rfl, rfl, rfl, rfl⟩

end RemoteControl

/-! ### Vector types -/

namespace Axis4

variable {T : Type}

theorem index_zero (a : Axis4 T) : a.index 0 = Except.ok a.axis3.x := rfl

theorem index_one (a : Axis4 T) : a.index 1 = Except.ok a.axis3.y := rfl

theorem index_two (a : Axis4 T) : a.index 2 = Except.ok a.axis3.z := rfl

theorem index_three (a : Axis4 T) : a.index 3 = Except.ok a.val4 := rfl

/-- C11: indexed access into an `Axis4` returns slot `i` of the 3-slot part when i ≤ 2
(slot 0, 1, 2 being x, y, z), returns the fourth slot `val4` (the throttle) when i = 3,
and throws the out-of-range error exactly when i > 3. -/
theorem index_spec (a : Axis4 T) (i : Nat) :
    (∀ h : i ≤ 2, a.index i = Except.ok (a.axis3.index ⟨i, Nat.lt_succ_of_le h⟩)) ∧
    (a.index 0 = Except.ok a.axis3.x ∧ a.index 1 = Except.ok a.axis3.y ∧
      a.index 2 = Except.ok a.axis3.z) ∧
    (i = 3 → a.index i = Except.ok a.val4 ∧ a.index i = Except.ok a.throttle) ∧
    ((∃ msg, a.index i = Except.error msg) ↔ 3 < i) ∧
    (3 < i → a.index i = Except.error ("index must be <= 3 but it was " ++ toString i)) := by
  refine ⟨?_, ⟨rfl, rfl, rfl⟩, ?_, ?_, ?_⟩
  · intro h
    simp [index, h]
  · intro h
    subst h
    exact ⟨rfl, rfl⟩
  · unfold index
    by_cases h2 : i ≤ 2
    · simp only [h2, dite_true]
      constructor
      · rintro ⟨msg, hm⟩
        cases hm
      · intro h
        omega
    · by_cases h3 : i = 3
      · simp only [h2, dite_false, h3, if_true]
        constructor
        · rintro ⟨msg, hm⟩
          cases hm
        · intro h
          omega
      · simp only [h2, dite_false, h3, if_false]
        constructor
        · intro _
          omega
        · intro _
          exact ⟨_, rfl⟩
  · intro h
    have h2 : ¬ i ≤ 2 := by omega
    have h3 : ¬ i = 3 := by omega
    simp [index, h2, h3]

/-- Witness for `index_spec`: the channel assignment (0, 1, 2, 3) read at index 3 and at
index 7. -/
theorem index_spec_witness :
    (mk4 0 1 2 3 : Axis4 Nat).index 3 = Except.ok 3 ∧
    (mk4 0 1 2 3 : Axis4 Nat).index 7 =
      Except.error ("index must be <= 3 but it was " ++ toString 7) :=
  ⟨((index_spec (mk4 0 1 2 3 : Axis4 Nat) 3).2.2.1 rfl).1,
    (index_spec (mk4 0 1 2 3 : Axis4 Nat) 7).2.2.2.2 (by decide)⟩

/-- C12: for every `Axis4` value a = (a0, a1, a2, a3), `axis4ToXyz` returns (a0, a1, a3)
without throwing; converting that back with `xyzToAxis4` gives (a0, a1, 0, a3), so the
round trip keeps slots 0, 1 and 3 and puts 0 in the yaw slot; and for every `Axis3`
value (x, y, z), `xyzToAxis4` gives (x, y, 0, z). -/
theorem axis4_xyz_conversions [Zero T] (a0 a1 a2 a3 x y z : T) :
    axis4ToXyz (mk4 a0 a1 a2 a3) = Except.ok ⟨a0, a1, a3⟩ ∧
    (axis4ToXyz (mk4 a0 a1 a2 a3)).map xyzToAxis4 = Except.ok (mk4 a0 a1 0 a3) ∧
    xyzToAxis4 (⟨x, y, z⟩ : Axis3 T) = mk4 x y 0 z :=
  ⟨rfl, rfl, rfl⟩

end Axis4

/-! ### Goal-mode presets -/

namespace GoalMode

/-- C15: the presets are fixed values: `getStandardAngleMode()` is (AngleLevel,
AngleLevel, AngleRate, Passthrough) and is the default-constructed `GoalMode`,
`getAllRateMode()` is (AngleRate, AngleRate, AngleRate, Passthrough), `getUnknown()` is
`Unknown` on all four slots, and each preset compares equal to itself under `equals4`,
which returns without throwing. -/
theorem presets_fixed :
    getStandardAngleMode =
      Axis4.mk4 GoalModeType.AngleLevel GoalModeType.AngleLevel GoalModeType.AngleRate
        GoalModeType.Passthrough ∧
    getStandardAngleMode = GoalMode.default ∧
    getAllRateMode =
      Axis4.mk4 GoalModeType.AngleRate GoalModeType.AngleRate GoalModeType.AngleRate
        GoalModeType.Passthrough ∧
    getUnknown =
      Axis4.mk4 GoalModeType.Unknown GoalModeType.Unknown GoalModeType.Unknown
        GoalModeType.Unknown ∧
    Axis4.equals4 getStandardAngleMode getStandardAngleMode = Except.ok true ∧
    Axis4.equals4 getAllRateMode getAllRateMode = Except.ok true ∧
    Axis4.equals4 getUnknown getUnknown = Except.ok true ∧
    Axis4.equals4 getStandardAngleMode getAllRateMode = Except.ok false := by
  exact ⟨rfl, rfl, rfl, rfl, rfl, rfl, rfl, rfl⟩

end GoalMode

/-! ### Vehicle lifecycle state -/

namespace VehicleState

/-- C13: `setState(state, home_point)` throws the invalid-argument error exactly when
`state` is `Armed` and `home_point.latitude` is not-a-number, which with `home_point`
left to its default is exactly when `state` is `Armed`; when it throws the object, and so
`getState()`, is as before, and when it returns `getState()` is the requested state. -/
theorem setState_spec (state : VehicleStateType) (home_point : GeoPoint) (v : VehicleState) :
    (threw (setState state home_point v) = true ↔
      (state = VehicleStateType.Armed ∧ home_point.latitude.isnan = true)) ∧
    (threw (setStateDefault state v) = true ↔ state = VehicleStateType.Armed) ∧
    (threw (setState state home_point v) = true →
      setState state home_point v =
        Except.error ("home_point must be supplied to set armed state", v) ∧
      (objectOf (setState state home_point v)).getState = v.getState) ∧
    (threw (setState state home_point v) = false →
      (objectOf (setState state home_point v)).getState = state) := by
  unfold setStateDefault setState
  have hnan : GeoPoint.nan.latitude.isnan = true := rfl
  by_cases hs : state = VehicleStateType.Armed
  · cases hn : home_point.latitude.isnan
    · simp [hs, hn, hnan, threw, objectOf, getState]
    · simp [hs, hn, hnan, threw, objectOf, getState]
  · simp [hs, threw, objectOf, getState]

/-- Witness for `setState_spec`: arming a fresh object without a home point throws and
leaves `getState()` at `Unknown`; arming it with a home point returns with `Armed`. -/
theorem setState_spec_witness :
    threw (setState VehicleStateType.Armed GeoPoint.nan fresh) = true ∧
    (objectOf (setState VehicleStateType.Armed GeoPoint.nan fresh)).getState =
      fresh.getState ∧
    threw (setState VehicleStateType.Armed
      ⟨FloatValue.num 51, FloatValue.num 4, FloatValue.num 10⟩ fresh) = false ∧
    (objectOf (setState VehicleStateType.Armed
      ⟨FloatValue.num 51, FloatValue.num 4, FloatValue.num 10⟩ fresh)).getState =
      VehicleStateType.Armed :=
  ⟨rfl,
    ((setState_spec VehicleStateType.Armed GeoPoint.nan fresh).2.2.1 rfl).2,
    rfl,
    (setState_spec VehicleStateType.Armed
      ⟨FloatValue.num 51, FloatValue.num 4, FloatValue.num 10⟩ fresh).2.2.2 rfl⟩

theorem setState_home_point (state : VehicleStateType) (home_point : GeoPoint)
    (v : VehicleState) :
    (objectOf (setState state home_point v)).home_point_ = v.home_point_ := by
  unfold setState
  split_ifs <;> rfl

theorem afterCalls_home_point :
    ∀ (calls : List (VehicleStateType × GeoPoint)) (v : VehicleState),
      (afterCalls v calls).home_point_ = v.home_point_ := by
  intro calls
  induction calls with
  | nil => intro v; rfl
  | cons c cs ih =>
    intro v
    have h := ih (objectOf (setState c.1 c.2 v))
    rw [setState_home_point] at h
    exact h

/-- C20: `setState` never writes the stored home point: after every sequence of
`setState` calls on a freshly constructed `VehicleState`, `getHomeGeoPoint()` is still
the not-a-number point; in particular a call that sets `Armed` with a valid home point
returns, `getState()` is `Armed`, and the stored latitude is still not-a-number. -/
theorem home_point_never_stored (calls : List (VehicleStateType × GeoPoint)) :
    (afterCalls fresh calls).getHomeGeoPoint = GeoPoint.nan ∧
    threw (setState VehicleStateType.Armed
      ⟨FloatValue.num 51, FloatValue.num 4, FloatValue.num 10⟩ fresh) = false ∧
    (afterCalls fresh [(VehicleStateType.Armed,
      ⟨FloatValue.num 51, FloatValue.num 4, FloatValue.num 10⟩)]).getState =
      VehicleStateType.Armed ∧
    (afterCalls fresh [(VehicleStateType.Armed,
      ⟨FloatValue.num 51, FloatValue.num 4, FloatValue.num 10⟩)]).getHomeGeoPoint.latitude.isnan
      = true := by
  refine ⟨?_, rfl, rfl, rfl⟩
  unfold getHomeGeoPoint
  rw [afterCalls_home_point]
  rfl

end VehicleState

/-! ### The update cycle as a whole -/

namespace RemoteControl

/-- C14: on a qualifying tick whose lifecycle state is none of `Inactive`, `BeingArmed`,
`Armed`, `BeingDisarmed`, `Disarmed`, `update()` throws its runtime error; no transition
is made: the lifecycle state, the goal vector and the accumulator are as before. -/
theorem update_unknown_state_throws (p : Params) (b : Board) (s : RemoteControl)
    (hq : p.rc.read_interval_ms < elapsed b s)
    (h1 : s.vehicle_state_ ≠ VehicleStateType.Inactive)
    (h2 : s.vehicle_state_ ≠ VehicleStateType.BeingArmed)
    (h3 : s.vehicle_state_ ≠ VehicleStateType.Armed)
    (h4 : s.vehicle_state_ ≠ VehicleStateType.BeingDisarmed)
    (h5 : s.vehicle_state_ ≠ VehicleStateType.Disarmed) :
    returns (update p b s) = false ∧
    update p b s =
      Except.error ("VehicleState has unknown value for RemoteControl::update()",
        stateOf (update p b s)) ∧
    (stateOf (update p b s)).vehicle_state_ = s.vehicle_state_ ∧
    (stateOf (update p b s)).goal_ = s.goal_ ∧
    (stateOf (update p b s)).request_duration_ = s.request_duration_ := by
  rw [update_of_qualifying p b s hq]
  unfold stateMachine
  cases hv : s.vehicle_state_ <;>
    simp only [updateGoalMode_vehicle_state, hv] <;>
    first
    | exact absurd hv h1
    | exact absurd hv h2
    | exact absurd hv h3
    | exact absurd hv h4
    | exact absurd hv h5
    | simp [returns, stateOf, hv]

/-- Witness for `update_unknown_state_throws`: an object in state `Unknown` reads the
arming gesture at 50 ms. -/
theorem update_unknown_state_throws_witness :
    exampleParams.rc.read_interval_ms < elapsed (armSticks 50) blank ∧
    blank.vehicle_state_ = VehicleStateType.Unknown ∧
    returns (update exampleParams (armSticks 50) blank) = false ∧
    (stateOf (update exampleParams (armSticks 50) blank)).goal_ = blank.goal_ :=
  have hq : exampleParams.rc.read_interval_ms < elapsed (armSticks 50) blank := by
    simp [exampleParams, elapsed, armSticks, sticks, blank, sub64]
  have h := update_unknown_state_throws exampleParams (armSticks 50) blank hq
    (by simp [blank]) (by simp [blank]) (by simp [blank]) (by simp [blank]) (by simp [blank])
  ⟨hq, rfl, h.1, h.2.2.2.1⟩

/-- C16: when the time elapsed since the last channel read is at most
`read_interval_ms`, `update()` returns and leaves every member as it was (goal vector,
goal mode, lifecycle state, accumulator, last-read time, selector values); on a
qualifying tick the last-read time becomes the clock value of the tick. -/
theorem update_rate_limit (p : Params) (b : Board) (s : RemoteControl) :
    (elapsed b s ≤ p.rc.read_interval_ms → update p b s = Except.ok s) ∧
    (p.rc.read_interval_ms < elapsed b s →
      (stateOf (update p b s)).last_rec_read_ = b.millis % 2 ^ 64 ∧
      (b.millis < 2 ^ 64 → (stateOf (update p b s)).last_rec_read_ = b.millis)) := by
  refine ⟨update_of_not_qualifying p b s, ?_⟩
  intro hq
  have h := stateOf_update_last_rec_read p b s hq
  exact ⟨h, fun hlt => by rw [h]; exact Nat.mod_eq_of_lt hlt⟩

/-- Witness for `update_rate_limit`: after `reset()`, a tick at 10 ms is skipped and a
tick at 11 ms sets the last-read time to 11. -/
theorem update_rate_limit_witness :
    elapsed (armSticks 10) (reset exampleParams blank) ≤ exampleParams.rc.read_interval_ms ∧
    update exampleParams (armSticks 10) (reset exampleParams blank) =
      Except.ok (reset exampleParams blank) ∧
    exampleParams.rc.read_interval_ms < elapsed (armSticks 11) (reset exampleParams blank) ∧
    (stateOf (update exampleParams (armSticks 11) (reset exampleParams blank))).last_rec_read_
      = 11 :=
  have h10 : elapsed (armSticks 10) (reset exampleParams blank) ≤
      exampleParams.rc.read_interval_ms := by
    simp [exampleParams, elapsed, armSticks, sticks, reset, sub64]
  have h11 : exampleParams.rc.read_interval_ms <
      elapsed (armSticks 11) (reset exampleParams blank) := by
    simp [exampleParams, elapsed, armSticks, sticks, reset, sub64]
  ⟨h10, (update_rate_limit exampleParams (armSticks 10) (reset exampleParams blank)).1 h10,
    h11,
    ((update_rate_limit exampleParams (armSticks 11) (reset exampleParams blank)).2 h11).2
      (by simp [armSticks, sticks])⟩

/-- C17: for every call of `update()`, the lifecycle state afterwards is the state before
or its successor in the cycle Inactive, BeingArmed, Armed, BeingDisarmed, Disarmed,
Inactive; the step from `Inactive` is taken only on a tick classified `ArmRequest`, the
one from `BeingArmed` only on `NeutralRequest`, the one from `Armed` only on
`DisarmRequest`; so a tick classified `None` never changes the lifecycle state from
`Inactive`, `BeingArmed` or `Armed`. -/
theorem lifecycle_step (p : Params) (b : Board) (s : RemoteControl) :
    ((stateOf (update p b s)).vehicle_state_ = s.vehicle_state_ ∨
      (s.vehicle_state_ = VehicleStateType.Inactive ∧
        (stateOf (update p b s)).vehicle_state_ = VehicleStateType.BeingArmed ∧
        getActionRequest p (readChannels p b) = RcRequestType.ArmRequest) ∨
      (s.vehicle_state_ = VehicleStateType.BeingArmed ∧
        (stateOf (update p b s)).vehicle_state_ = VehicleStateType.Armed ∧
        getActionRequest p (readChannels p b) = RcRequestType.NeutralRequest) ∨
      (s.vehicle_state_ = VehicleStateType.Armed ∧
        (stateOf (update p b s)).vehicle_state_ = VehicleStateType.BeingDisarmed ∧
        getActionRequest p (readChannels p b) = RcRequestType.DisarmRequest) ∨
      (s.vehicle_state_ = VehicleStateType.BeingDisarmed ∧
        (stateOf (update p b s)).vehicle_state_ = VehicleStateType.Disarmed) ∨
      (s.vehicle_state_ = VehicleStateType.Disarmed ∧
        (stateOf (update p b s)).vehicle_state_ = VehicleStateType.Inactive)) ∧
    (getActionRequest p (readChannels p b) = RcRequestType.None →
      (s.vehicle_state_ = VehicleStateType.Inactive ∨
        s.vehicle_state_ = VehicleStateType.BeingArmed ∨
        s.vehicle_state_ = VehicleStateType.Armed) →
      (stateOf (update p b s)).vehicle_state_ = s.vehicle_state_) := by
  by_cases hq : p.rc.read_interval_ms < elapsed b s
  · rw [update_of_qualifying p b s hq]
    unfold stateMachine
    cases hv : s.vehicle_state_ <;>
      simp only [updateGoalMode_vehicle_state, hv] <;>
      (try split_ifs) <;>
      simp_all [stateOf, (updateGoal_fields _ _ _).1]
  · rw [update_of_not_qualifying p b s (by omega)]
    exact ⟨Or.inl rfl, fun _ _ => rfl⟩

/-- Witness for `lifecycle_step`: sticks that match no gesture, read at 50 ms by an armed
object, leave it armed. -/
theorem lifecycle_step_witness :
    getActionRequest exampleParams (readChannels exampleParams (sticks 50 1 0 0 0 0)) =
      RcRequestType.None ∧
    (stateOf (update exampleParams (sticks 50 1 0 0 0 0)
      { blank with vehicle_state_ := VehicleStateType.Armed })).vehicle_state_ =
      VehicleStateType.Armed :=
  have hg : getActionRequest exampleParams (readChannels exampleParams (sticks 50 1 0 0 0 0)) =
      RcRequestType.None := by
    decide!
  ⟨hg, (lifecycle_step exampleParams (sticks 50 1 0 0 0 0)
    { blank with vehicle_state_ := VehicleStateType.Armed }).2 hg (Or.inr (Or.inr rfl))⟩

/-! ### Gestures for tolerances below one half -/

/-- C18, as stated, fails: with tolerance 0.1f (which is ≥ 0 and < 1/2) the code
compares against `1 - tolerance` rounded to binary32, 0.9f = 15099494 / 2 ^ 24, and the
sticks roll = 0.9f, pitch = 1, yaw = −0.9f, throttle = 0 are answered `DisarmRequest`
although yaw ≤ −(1 − ε) does not hold. -/
theorem disarm_threshold_is_rounded :
    0 ≤ float32Params.rc.action_request_tolerance ∧
    float32Params.rc.action_request_tolerance < 1 / 2 ∧
    getActionRequest float32Params
      (Axis4.mk4 (15099494 / 16777216) 1 (-15099494 / 16777216) 0) =
      RcRequestType.DisarmRequest ∧
    ¬ ((Axis4.mk4 (15099494 / 16777216) 1 (-15099494 / 16777216) 0 : Axis4 TReal).axis3.yaw ≤
        -(1 - float32Params.rc.action_request_tolerance)) ∧
    ¬ ((Axis4.mk4 (15099494 / 16777216) 1 (-15099494 / 16777216) 0 : Axis4 TReal).axis3.roll ≥
        1 - float32Params.rc.action_request_tolerance) := by
  refine ⟨by decide!, by decide!, by decide!, by decide!, by decide!⟩

/-- C18, amended: for every binary32 tolerance ε with 0 ≤ ε < 1/2 and every stick vector,
no two of the `ArmRequest`, `DisarmRequest` and `NeutralRequest` conditions, as the code
computes them, hold together; `getActionRequest` answers `NeutralRequest` exactly when
roll, pitch and yaw each lie in [−ε, ε], and `DisarmRequest` exactly when yaw ≤ −s,
throttle ≤ ε, roll ≥ s and q ≥ s, where s is 1 − ε rounded to binary32 and q is
(pitch + 1) / 2 as computed in binary32 (when both computations are exact, that is
yaw ≤ −(1 − ε), throttle ≤ ε, roll ≥ 1 − ε, (pitch + 1) / 2 ≥ 1 − ε on exact numbers);
and for ε = 1/2 some stick vector satisfies both the `ArmRequest` and the
`NeutralRequest` condition. -/
theorem gestures_below_half (p : Params) (channels : Axis4 TReal)
    (hf : float32 p.rc.action_request_tolerance = p.rc.action_request_tolerance)
    (h0 : 0 ≤ p.rc.action_request_tolerance) (h1 : p.rc.action_request_tolerance < 1 / 2) :
    (¬ (armGesture p.rc.action_request_tolerance channels = true ∧
          disarmGesture p.rc.action_request_tolerance channels = true) ∧
      ¬ (armGesture p.rc.action_request_tolerance channels = true ∧
          neutralGesture p.rc.action_request_tolerance channels = true) ∧
      ¬ (disarmGesture p.rc.action_request_tolerance channels = true ∧
          neutralGesture p.rc.action_request_tolerance channels = true)) ∧
    (getActionRequest p channels = RcRequestType.NeutralRequest ↔
      ((-p.rc.action_request_tolerance ≤ channels.axis3.roll ∧
          channels.axis3.roll ≤ p.rc.action_request_tolerance) ∧
        (-p.rc.action_request_tolerance ≤ channels.axis3.pitch ∧
          channels.axis3.pitch ≤ p.rc.action_request_tolerance) ∧
        (-p.rc.action_request_tolerance ≤ channels.axis3.yaw ∧
          channels.axis3.yaw ≤ p.rc.action_request_tolerance))) ∧
    (getActionRequest p channels = RcRequestType.DisarmRequest ↔
      (channels.axis3.yaw ≤ -(fsub 1 p.rc.action_request_tolerance) ∧
        channels.throttle ≤ p.rc.action_request_tolerance ∧
        channels.axis3.roll ≥ fsub 1 p.rc.action_request_tolerance ∧
        fdiv (fadd channels.axis3.pitch 1) 2 ≥ fsub 1 p.rc.action_request_tolerance)) ∧
    (fsub 1 p.rc.action_request_tolerance = 1 - p.rc.action_request_tolerance →
      fdiv (fadd channels.axis3.pitch 1) 2 = (channels.axis3.pitch + 1) / 2 →
      (getActionRequest p channels = RcRequestType.DisarmRequest ↔
        (channels.axis3.yaw ≤ -(1 - p.rc.action_request_tolerance) ∧
          channels.throttle ≤ p.rc.action_request_tolerance ∧
          channels.axis3.roll ≥ 1 - p.rc.action_request_tolerance ∧
          (channels.axis3.pitch + 1) / 2 ≥ 1 - p.rc.action_request_tolerance))) ∧
    (∃ c : Axis4 TReal, armGesture (1 / 2) c = true ∧ neutralGesture (1 / 2) c = true) := by
  have _h0 := h0
  have hs := half_le_fsub_one p.rc.action_request_tolerance h1
  have had : ¬ (armGesture p.rc.action_request_tolerance channels = true ∧
      disarmGesture p.rc.action_request_tolerance channels = true) := by
    rw [armGesture_iff, disarmGesture_iff]
    rintro ⟨⟨ha, _⟩, ⟨hd, _⟩⟩
    linarith
  have han : ¬ (armGesture p.rc.action_request_tolerance channels = true ∧
      neutralGesture p.rc.action_request_tolerance channels = true) := by
    rw [armGesture_iff, neutralGesture_iff _ _ hf]
    rintro ⟨⟨ha, _⟩, ⟨_, _, ⟨_, hn⟩⟩⟩
    linarith
  have hdn : ¬ (disarmGesture p.rc.action_request_tolerance channels = true ∧
      neutralGesture p.rc.action_request_tolerance channels = true) := by
    rw [disarmGesture_iff, neutralGesture_iff _ _ hf]
    rintro ⟨⟨hd, _⟩, ⟨_, _, ⟨hn, _⟩⟩⟩
    linarith
  have hdis : getActionRequest p channels = RcRequestType.DisarmRequest ↔
      (channels.axis3.yaw ≤ -(fsub 1 p.rc.action_request_tolerance) ∧
        channels.throttle ≤ p.rc.action_request_tolerance ∧
        channels.axis3.roll ≥ fsub 1 p.rc.action_request_tolerance ∧
        fdiv (fadd channels.axis3.pitch 1) 2 ≥ fsub 1 p.rc.action_request_tolerance) := by
    rw [← disarmGesture_iff, getActionRequest_eq]
    cases ha : armGesture p.rc.action_request_tolerance channels <;>
      cases hd : disarmGesture p.rc.action_request_tolerance channels <;>
      cases hn : neutralGesture p.rc.action_request_tolerance channels <;>
      simp_all
  refine ⟨⟨had, han, hdn⟩, ?_, hdis, ?_, ?_⟩
  · rw [← neutralGesture_iff _ _ hf, getActionRequest_eq]
    cases ha : armGesture p.rc.action_request_tolerance channels <;>
      cases hd : disarmGesture p.rc.action_request_tolerance channels <;>
      cases hn : neutralGesture p.rc.action_request_tolerance channels <;>
      simp_all
  · intro hse hqe
    rw [hse, hqe] at hdis
    exact hdis
  · exact ⟨Axis4.mk4 (-1 / 2) 0 (1 / 2) 0, by decide!, by decide!⟩

/-- Witness for `gestures_below_half`: tolerance 0.1f and centred sticks. -/
theorem gestures_below_half_witness :
    float32 float32Params.rc.action_request_tolerance =
      float32Params.rc.action_request_tolerance ∧
    0 ≤ float32Params.rc.action_request_tolerance ∧
    float32Params.rc.action_request_tolerance < 1 / 2 ∧
    (getActionRequest float32Params (Axis4.mk4 0 0 0 0) = RcRequestType.NeutralRequest ↔
      ((-float32Params.rc.action_request_tolerance ≤
            (Axis4.mk4 0 0 0 0 : Axis4 TReal).axis3.roll ∧
          (Axis4.mk4 0 0 0 0 : Axis4 TReal).axis3.roll ≤
            float32Params.rc.action_request_tolerance) ∧
        (-float32Params.rc.action_request_tolerance ≤
            (Axis4.mk4 0 0 0 0 : Axis4 TReal).axis3.pitch ∧
          (Axis4.mk4 0 0 0 0 : Axis4 TReal).axis3.pitch ≤
            float32Params.rc.action_request_tolerance) ∧
        (-float32Params.rc.action_request_tolerance ≤
            (Axis4.mk4 0 0 0 0 : Axis4 TReal).axis3.yaw ∧
          (Axis4.mk4 0 0 0 0 : Axis4 TReal).axis3.yaw ≤
            float32Params.rc.action_request_tolerance))) :=
  have hf : float32 float32Params.rc.action_request_tolerance =
      float32Params.rc.action_request_tolerance := by decide!
  have h0 : 0 ≤ float32Params.rc.action_request_tolerance := by decide!
  have h1 : float32Params.rc.action_request_tolerance < 1 / 2 := by decide!
  ⟨hf, h0, h1, (gestures_below_half float32Params (Axis4.mk4 0 0 0 0) hf h0 h1).2.1⟩

/-! ### The first tick after `reset()` -/

/-- C19: the accumulator is advanced by the time since the previous channel read: on the
first tick after `reset()` (state `Inactive`, accumulator 0, last read at 0) `dt` is the
clock value itself, so a tick that reads the `ArmRequest` gesture with `dt` above
`read_interval_ms` and above `arm_duration` moves the state to `BeingArmed` at once. -/
theorem arms_on_first_tick (p : Params) (s0 : RemoteControl) (b : Board)
    (hd : p.default_vehicle_state = VehicleStateType.Inactive)
    (hg : getActionRequest p (readChannels p b) = RcRequestType.ArmRequest)
    (hq : p.rc.read_interval_ms < elapsed b (reset p s0))
    (ha : p.rc.arm_duration < elapsed b (reset p s0)) :
    (reset p s0).vehicle_state_ = VehicleStateType.Inactive ∧
    (reset p s0).request_duration_ = 0 ∧
    elapsed b (reset p s0) = b.millis % 2 ^ 64 ∧
    returns (update p b (reset p s0)) = true ∧
    (stateOf (update p b (reset p s0))).vehicle_state_ = VehicleStateType.BeingArmed := by
  have hs : (reset p s0).vehicle_state_ = VehicleStateType.Inactive := hd
  have he : elapsed b (reset p s0) = b.millis % 2 ^ 64 := by
    simp only [elapsed, sub64, reset]
    omega
  have hadd : add64 (reset p s0).request_duration_ (elapsed b (reset p s0)) =
      elapsed b (reset p s0) := by
    have hlt : elapsed b (reset p s0) < 2 ^ 64 := sub64_lt _ _
    have hr : (reset p s0).request_duration_ = 0 := rfl
    rw [hr]
    unfold add64
    omega
  obtain ⟨s1, hu, _, hgt, _⟩ := step_inactive_arm p b (reset p s0) hq hs hg
  obtain ⟨hv, _⟩ := hgt (by rw [hadd]; exact ha)
  refine ⟨hs, rfl, he, ?_, ?_⟩
  · rw [hu]; rfl
  · rw [hu]; exact hv

/-- Witness for `arms_on_first_tick`: holds of 100 ms, and the arming gesture first read
200 ms after `reset()`. -/
theorem arms_on_first_tick_witness :
    getActionRequest exampleParams (readChannels exampleParams (armSticks 200)) =
      RcRequestType.ArmRequest ∧
    exampleParams.rc.arm_duration < elapsed (armSticks 200) (reset exampleParams blank) ∧
    (stateOf (update exampleParams (armSticks 200) (reset exampleParams blank))).vehicle_state_
      = VehicleStateType.BeingArmed :=
  have hq : exampleParams.rc.read_interval_ms <
      elapsed (armSticks 200) (reset exampleParams blank) := by
    simp [exampleParams, elapsed, armSticks, sticks, reset, sub64]
  have ha : exampleParams.rc.arm_duration <
      elapsed (armSticks 200) (reset exampleParams blank) := by
    simp [exampleParams, elapsed, armSticks, sticks, reset, sub64]
  ⟨armSticks_gesture 200, ha,
    (arms_on_first_tick exampleParams blank (armSticks 200) rfl (armSticks_gesture 200) hq
      ha).2.2.2.2⟩

end RemoteControl

end simple_flight
